import Mathlib

/-!
Verification development for the message-orchestration core of the
AI customer-message backend (FastAPI + SQLAlchemy service under
`backend/app`).  The Python sources are shallowly embedded: database rows
become Lean structures, the database session becomes an explicit `Db`
state threaded through each operation, wall-clock instants (`datetime.utcnow`)
become a `Nat` number of seconds passed in as `now`, and calls to external
collaborators (the AI classification gateway, `difflib.SequenceMatcher`,
the response-template renderer, the HTTP transport, the lexical emotion
table) become oracle parameters, since their outputs are data the core
merely consumes.

Schema note: the checked-in `app/models/database.py` is a stale snapshot
that lacks several columns; migrations 004/005/008 add `chat_sessions`,
`messages.is_first_message` / `priority` / `escalation_reason`, and
`reminders.failed_attempts` / `last_failed_at` / `max_retry_attempts`, and
the service code reads and writes those columns.  The structures below
therefore carry the migrated schema.
-/

namespace AiMsg

/-- `MessageType` enum from `app/models/database.py`. -/
inductive MessageType where
  | user
  | botAuto
  | botEscalated
  | operator
deriving DecidableEq, Repr

/-- `ScenarioType` enum from `app/models/database.py`. -/
inductive ScenarioType where
  | greeting
  | referral
  | techSupportBasic
  | farewell
  | reminder
  | absenceRequest
  | scheduleChange
  | complaint
  | missingTrainer
  | massOutage
  | reviewBonus
  | crossExtension
  | unknown
deriving DecidableEq, Repr

/-- The Python-side name lookup `ScenarioType[scenario]`: `some` when the
string is a member name, `none` modelling the `KeyError` raised otherwise. -/
def ScenarioType.ofString : String → Option ScenarioType
  | "GREETING" => some .greeting
  | "REFERRAL" => some .referral
  | "TECH_SUPPORT_BASIC" => some .techSupportBasic
  | "FAREWELL" => some .farewell
  | "REMINDER" => some .reminder
  | "ABSENCE_REQUEST" => some .absenceRequest
  | "SCHEDULE_CHANGE" => some .scheduleChange
  | "COMPLAINT" => some .complaint
  | "MISSING_TRAINER" => some .missingTrainer
  | "MASS_OUTAGE" => some .massOutage
  | "REVIEW_BONUS" => some .reviewBonus
  | "CROSS_EXTENSION" => some .crossExtension
  | "UNKNOWN" => some .unknown
  | _ => none

/-- `PriorityLevel` enum (migration 005; used by the routes and services). -/
inductive PriorityLevel where
  | low
  | medium
  | high
  | critical
deriving DecidableEq, Repr

/-- The Python constructor `PriorityLevel(value)`: `some` when the string is
one of the enum values, `none` modelling the `ValueError` raised otherwise. -/
def PriorityLevel.ofString : String → Option PriorityLevel
  | "low" => some .low
  | "medium" => some .medium
  | "high" => some .high
  | "critical" => some .critical
  | _ => none

/-- `EscalationLevel` enum from `app/services/escalation_manager.py`. -/
inductive EscalationLevel where
  | low
  | medium
  | high
  | critical
deriving DecidableEq, Repr

/-- The `.value` string of an `EscalationLevel` member. -/
def EscalationLevel.value : EscalationLevel → String
  | .low => "low"
  | .medium => "medium"
  | .high => "high"
  | .critical => "critical"

/-- `EscalationReason` enum from `app/services/escalation_manager.py`
(the database enum of migration 005 has the same members). -/
inductive EscalationReason where
  | lowConfidence
  | repeatedFailed
  | complaint
  | unknownScenario
  | operatorMarked
  | systemError
deriving DecidableEq, Repr

/-- `ReminderType` enum from `app/models/database.py`. -/
inductive ReminderType where
  | reminder15min
  | reminder30min
  | reminder1day
deriving DecidableEq, Repr

/-- `DialogStatus` enum (migration 004; used by `dialog_auto_close.py`). -/
inductive DialogStatus where
  | open
  | closed
  | escalated
deriving DecidableEq, Repr

/-- A row of the `messages` table (model plus migration 005 columns).
`createdAt` is seconds; ids are allocated from the `Db.nextId` counter,
standing in for `uuid4()` which never collides. -/
structure Message where
  id : Nat
  clientId : String
  content : String
  messageType : MessageType
  isProcessed : Bool
  isFirstMessage : Bool
  priority : PriorityLevel
  escalationReason : Option EscalationReason
  createdAt : Nat
deriving DecidableEq, Repr

/-- A row of the `classifications` table. -/
structure Classification where
  id : Nat
  messageId : Nat
  detectedScenario : ScenarioType
  confidence : ℚ
  aiModel : String
  reasoning : Option String
  createdAt : Nat
deriving DecidableEq, Repr

/-- A row of the `reminders` table (model plus migration 008 columns). -/
structure Reminder where
  id : Nat
  clientId : String
  messageId : Nat
  reminderType : ReminderType
  scheduledAt : Nat
  sentAt : Option Nat
  isCancelled : Bool
  failedAttempts : Nat
  lastFailedAt : Option Nat
  maxRetryAttempts : Nat
  createdAt : Nat
deriving DecidableEq, Repr

/-- A row of the `chat_sessions` table (migrations 004 and 007). -/
structure ChatSession where
  id : Nat
  clientId : String
  status : DialogStatus
  lastActivityAt : Nat
  closedAt : Option Nat
  farewellSentAt : Option Nat
  webhookUrl : Option String
  platform : Option String
  chatId : Option String
deriving DecidableEq, Repr

/-- The relational state seen by one logical database session.  `nextId`
is the id-allocation counter standing in for `uuid4()`. -/
structure Db where
  messages : List Message
  classifications : List Classification
  reminders : List Reminder
  sessions : List ChatSession
  nextId : Nat
deriving DecidableEq, Repr

/-- The empty database. -/
def Db.empty : Db := ⟨[], [], [], [], 0⟩

/-- Insertion into a sorted-descending list, comparing by a `Nat` key:
keeps earlier-inserted rows first among equal keys. -/
def insertDescBy (key : α → Nat) (a : α) : List α → List α
  | [] => [a]
  | b :: bs => if key b < key a then a :: b :: bs else b :: insertDescBy key a bs

/-- Stable sort by a `Nat` key, largest first: the embedding of SQL
`ORDER BY created_at DESC` (resp. `ASC` read back to front). -/
def sortDescBy (key : α → Nat) : List α → List α
  | [] => []
  | a :: as => insertDescBy key a (sortDescBy key as)

/-- Stable sort by a `Nat` key, smallest first (`ORDER BY ... ASC`). -/
def sortAscBy (key : α → Nat) (l : List α) : List α :=
  (sortDescBy key l.reverse).reverse

/-- `scalar_one_or_none` on a filtered-by-id query: `some` when exactly one
row matches.  (SQLAlchemy raises `MultipleResultsFound` on two or more
matching rows; theorems below carry id-uniqueness hypotheses so that the
branch conflating that error with `none` is never exercised.) -/
def lookupMessage (db : Db) (mid : Nat) : Option Message :=
  match db.messages.filter (fun m => m.id = mid) with
  | [m] => some m
  | _ => none

/-- Likewise for reminders. -/
def lookupReminder (db : Db) (rid : Nat) : Option Reminder :=
  match db.reminders.filter (fun r => r.id = rid) with
  | [r] => some r
  | _ => none

/-- `scalar_one_or_none` on `chat_sessions` filtered by `client_id` (the
table has a unique constraint on `client_id`, migration 004). -/
def lookupSession (db : Db) (clientId : String) : Option ChatSession :=
  (db.sessions.filter (fun s => s.clientId = clientId)).head?

/-! ## Mass-outage detector (`app/services/mass_outage_detector.py`) -/

/-- Result dict of `MassOutageDetector.detect_mass_outage`. -/
structure MassOutageResult where
  isMassOutage : Bool
  similarMessagesCount : Nat
  similarityScore : ℚ
  detectedAt : Nat
deriving DecidableEq, Repr

/-- `MassOutageDetector._calculate_similarity`: lower-cases both texts and
asks `difflib.SequenceMatcher(...).ratio()`.  `difflib` is Python standard
library, not repository code, so the ratio itself is the oracle `ratio`
(a total function into `[0,1]`-valued rationals); the lower-casing wrapper
is the repository's. -/
def calculateSimilarity (ratio : String → String → ℚ) (text1 text2 : String) : ℚ :=
  ratio text1.toLower text2.toLower

/-- The window query of `detect_mass_outage`: USER messages of other
clients from the last 10 minutes, newest first, capped at 100 rows. -/
def massOutageWindow (db : Db) (now : Nat) (currentClientId : String) : List Message :=
  ((sortDescBy Message.createdAt
    (db.messages.filter (fun m =>
      now - 10 * 60 ≤ m.createdAt ∧ m.messageType = MessageType.user
        ∧ m.clientId ≠ currentClientId))).take 100)

/-- `MassOutageDetector.detect_mass_outage`.  Thresholds are the
constructor constants: similarity 0.7, window 10 minutes, mass threshold 5. -/
def detectMassOutage (db : Db) (now : Nat) (ratio : String → String → ℚ)
    (currentMessage currentClientId : String) : MassOutageResult :=
  let recentMessages := massOutageWindow db now currentClientId
  if recentMessages.length < 5 then
    { isMassOutage := false
      similarMessagesCount := recentMessages.length
      similarityScore := 0
      detectedAt := now }
  else
    let similar := recentMessages.filter (fun m =>
      mkRat 7 10 ≤ calculateSimilarity ratio currentMessage m.content)
    let totalSimilarity : ℚ :=
      (similar.map (fun m => calculateSimilarity ratio currentMessage m.content)).sum
    let avgSimilarity : ℚ :=
      if 0 < similar.length then totalSimilarity / similar.length else 0
    { isMassOutage := 5 ≤ similar.length
      similarMessagesCount := similar.length
      similarityScore := avgSimilarity
      detectedAt := now }

/-! ## Escalation manager (`app/services/escalation_manager.py`) -/

/-- Result dict of `EscalationManager.analyze_emotion`.  The weighted
regex/emoji pattern table it is computed from is embedded as an oracle
function (see `evaluateEscalation`): every claim below holds for every
possible emotion analysis, so nothing depends on the table itself. -/
structure EmotionResult where
  isNegative : Bool
  score : ℚ
  indicators : List String
deriving DecidableEq, Repr

/-- Result dict of `EscalationManager.evaluate_escalation`. -/
structure EscalationResult where
  shouldEscalate : Bool
  level : EscalationLevel
  reasons : List EscalationReason
  priorityQueue : Nat
  confidence : ℚ
  emotionAnalysis : Option EmotionResult
deriving DecidableEq, Repr

/-- `EscalationManager._get_recent_requests`: USER messages of the client
within the trailing `minutes` window. -/
def getRecentRequests (db : Db) (now : Nat) (clientId : String) (minutes : Nat) : Nat :=
  (db.messages.filter (fun m =>
    m.clientId = clientId ∧ now - minutes * 60 ≤ m.createdAt
      ∧ m.messageType = MessageType.user)).length

/-- `EscalationManager._get_recent_failures`: classifications joined to a
message of the client, created within `hours`, with confidence below 0.70. -/
def getRecentFailures (db : Db) (now : Nat) (clientId : String) (hours : Nat) : Nat :=
  (db.classifications.filter (fun c =>
    (db.messages.any (fun m => m.id = c.messageId ∧ m.clientId = clientId))
      ∧ now - hours * 3600 ≤ c.createdAt ∧ c.confidence < mkRat 7 10)).length

/-- `EscalationManager._has_recent_escalations`: any BOT_ESCALATED message
to the client within the trailing `hours` window. -/
def hasRecentEscalations (db : Db) (now : Nat) (clientId : String) (hours : Nat) : Bool :=
  db.messages.any (fun m =>
    m.clientId = clientId ∧ m.messageType = MessageType.botEscalated
      ∧ now - hours * 3600 ≤ m.createdAt)

/-- `EscalationManager._get_priority_queue`. -/
def getPriorityQueue : EscalationLevel → Nat
  | .low => 10
  | .medium => 7
  | .high => 3
  | .critical => 1

/-- One notch up, as in check 5 of `evaluate_escalation` (the `if`/`elif`
chain leaves `critical` unchanged). -/
def bumpLevel : EscalationLevel → EscalationLevel
  | .low => .medium
  | .medium => .high
  | .high => .critical
  | .critical => .critical

/-- `EscalationManager.evaluate_escalation`.  The sequential mutation of
`reasons` / `base_level` becomes a let-chain; `analyzeEmotion` is the
`analyze_emotion` pattern scan, passed as a function; `messageContent`
is the optional keyword argument (`None` unless the caller passes it, and
Python treats the empty string as falsy in `if message_content:`). -/
def evaluateEscalation (db : Db) (now : Nat)
    (analyzeEmotion : String → EmotionResult)
    (scenario : String) (confidence : ℚ) (clientId : String)
    (messageContent : Option String := none) : EscalationResult :=
  -- Check 1: low confidence (threshold 0.85 from the constructor)
  let st1 : List EscalationReason × EscalationLevel :=
    if confidence < mkRat 85 100 then ([.lowConfidence], .medium) else ([], .low)
  -- Check 2: unknown scenario
  let st2 := if scenario = "UNKNOWN" then (st1.1 ++ [.unknownScenario], EscalationLevel.high) else st1
  -- Check 3: repeated low-confidence classifications in 2 hours
  let st3 :=
    if 2 ≤ getRecentFailures db now clientId 2 then
      let rs := st2.1 ++ [.repeatedFailed]
      (rs, if 1 < rs.length then EscalationLevel.high else EscalationLevel.medium)
    else st2
  -- Check 3.5: repeated requests in 10 minutes
  let st4 :=
    if 3 ≤ getRecentRequests db now clientId 10 then
      (st3.1 ++ [.repeatedFailed], EscalationLevel.high)
    else st3
  -- Check 4: recent escalations within the hour
  let st5 :=
    if hasRecentEscalations db now clientId 1 then
      (st4.1 ++ [.complaint], EscalationLevel.critical)
    else st4
  -- Check 5: emotional tone of the content, when content was passed
  let st6 : Option EmotionResult × List EscalationReason × EscalationLevel :=
    match messageContent with
    | some c =>
      if c ≠ "" then
        let e := analyzeEmotion c
        if e.isNegative then (some e, st5.1 ++ [.complaint], bumpLevel st5.2)
        else (some e, st5.1, st5.2)
      else (none, st5.1, st5.2)
    | none => (none, st5.1, st5.2)
  { shouldEscalate := 0 < st6.2.1.length ∨ confidence < mkRat 7 10
    level := st6.2.2
    reasons := st6.2.1
    priorityQueue := getPriorityQueue st6.2.2
    confidence := confidence
    emotionAnalysis := st6.1 }

/-! ## Dialog lifecycle (`app/services/dialog_auto_close.py`) -/

/-- Replace the first session row with the given `client_id` (the ORM
mutates the single row returned by the unique-`client_id` query). -/
def replaceSession : List ChatSession → ChatSession → List ChatSession
  | [], s => [s]
  | x :: xs, s => if x.clientId = s.clientId then s :: xs else x :: replaceSession xs s

/-- `DialogAutoCloseService.get_or_create_session`: returns the session and
the updated database.  The optional webhook coordinates are written onto an
existing row only when provided (not `None`). -/
def getOrCreateSession (db : Db) (clientId : String) (now : Nat)
    (webhookUrl : Option String := none) (platform : Option String := none)
    (chatId : Option String := none) : ChatSession × Db :=
  match lookupSession db clientId with
  | none =>
    let s : ChatSession :=
      { id := db.nextId, clientId := clientId, status := .open
        lastActivityAt := now, closedAt := none, farewellSentAt := none
        webhookUrl := webhookUrl, platform := platform, chatId := chatId }
    (s, { db with sessions := db.sessions ++ [s], nextId := db.nextId + 1 })
  | some s =>
    let s1 := match webhookUrl with | some u => { s with webhookUrl := some u } | none => s
    let s2 := match platform with | some p => { s1 with platform := some p } | none => s1
    let s3 := match chatId with | some c => { s2 with chatId := some c } | none => s2
    (s3, { db with sessions := replaceSession db.sessions s3 })

/-- `DialogAutoCloseService.update_activity`: get-or-create, reopen when
CLOSED (clearing `closed_at` and `farewell_sent_at`), always bump
`last_activity_at`. -/
def updateActivity (db : Db) (clientId : String) (now : Nat)
    (webhookUrl : Option String := none) (platform : Option String := none)
    (chatId : Option String := none) : Db :=
  let (s, db1) := getOrCreateSession db clientId now webhookUrl platform chatId
  let s1 :=
    if s.status = DialogStatus.closed then
      { s with status := .open, closedAt := none, farewellSentAt := none }
    else s
  let s2 := { s1 with lastActivityAt := now }
  { db1 with sessions := replaceSession db1.sessions s2 }

/-! ## Message-processing service (`app/services/message_processing_service.py`) -/

/-- Result dict of `AIClassifier.classify` (the external classification
gateway of spec §6, consumed as an opaque oracle; on failure the adapter
returns `scenario="UNKNOWN"`, `confidence=0`, `success=False`). -/
structure ClassifyResult where
  success : Bool
  scenario : String
  confidence : ℚ
  reasoning : Option String
  aiModel : String
deriving DecidableEq, Repr

/-- `MessageProcessingService.check_duplicate`: newest message of the same
client with byte-identical content inside the trailing window (default 5 s). -/
def checkDuplicate (db : Db) (now : Nat) (clientId content : String)
    (timeWindowSeconds : Nat := 5) : Option Message :=
  ((sortDescBy Message.createdAt
    (db.messages.filter (fun m =>
      m.clientId = clientId ∧ m.content = content
        ∧ now - timeWindowSeconds ≤ m.createdAt))).take 1).head?

/-- `MessageProcessingService.determine_first_message`: reads all existing
messages of the client under `SELECT ... FOR UPDATE` (wait, not skip) and
returns whether there were none.  The lock serializes intake per client,
which is what justifies modelling each intake as one atomic step. -/
def determineFirstMessage (db : Db) (clientId : String) : Bool :=
  (db.messages.filter (fun m => m.clientId = clientId)).length = 0

/-- `MessageProcessingService.classify_message`: runs the mass-outage
detector first and overrides the classification on a hit; otherwise returns
the AI gateway's answer (`aiResult`, an oracle input since the call is
external network I/O). -/
def classifyMessage (db : Db) (now : Nat) (ratio : String → String → ℚ)
    (aiResult : ClassifyResult) (processedText clientId : String) : ClassifyResult :=
  let massOutageResult := detectMassOutage db now ratio processedText clientId
  if massOutageResult.isMassOutage then
    { success := true
      scenario := "MASS_OUTAGE"
      confidence := mkRat 95 100
      reasoning := some ("Mass outage detected: "
        ++ toString massOutageResult.similarMessagesCount ++ " similar messages")
      aiModel := "mass_outage_detector" }
  else aiResult

/-- Codepoint ranges of the characters Python's `str.isdigit` accepts
(Unicode `Numeric_Type=Decimal` or `Numeric_Type=Digit`, CPython table):
the decimal digits of every script plus superscript, subscript and other
digit forms such as U+00B2 and U+0663. -/
def pyDigitRanges : List (Nat × Nat) :=
  [(48, 57), (178, 179), (185, 185), (1632, 1641),
    (1776, 1785), (1984, 1993), (2406, 2415), (2534, 2543),
    (2662, 2671), (2790, 2799), (2918, 2927), (3046, 3055),
    (3174, 3183), (3302, 3311), (3430, 3439), (3558, 3567),
    (3664, 3673), (3792, 3801), (3872, 3881), (4160, 4169),
    (4240, 4249), (4969, 4977), (6112, 6121), (6160, 6169),
    (6470, 6479), (6608, 6618), (6784, 6793), (6800, 6809),
    (6992, 7001), (7088, 7097), (7232, 7241), (7248, 7257),
    (8304, 8304), (8308, 8313), (8320, 8329), (9312, 9320),
    (9332, 9340), (9352, 9360), (9450, 9450), (9461, 9469),
    (9471, 9471), (10102, 10110), (10112, 10120), (10122, 10130),
    (42528, 42537), (43216, 43225), (43264, 43273), (43472, 43481),
    (43504, 43513), (43600, 43609), (44016, 44025), (65296, 65305),
    (66720, 66729), (68160, 68163), (68912, 68921), (69216, 69224),
    (69714, 69722), (69734, 69743), (69872, 69881), (69942, 69951),
    (70096, 70105), (70384, 70393), (70736, 70745), (70864, 70873),
    (71248, 71257), (71360, 71369), (71472, 71481), (71904, 71913),
    (72016, 72025), (72784, 72793), (73040, 73049), (73120, 73129),
    (92768, 92777), (92864, 92873), (93008, 93017), (120782, 120831),
    (123200, 123209), (123632, 123641), (125264, 125273), (127232, 127242),
    (130032, 130041)]

/-- Python `char.isdigit()` for one character: membership in the Unicode
digit table above. -/
def pyIsDigit (c : Char) : Bool :=
  pyDigitRanges.any (fun r => r.1 ≤ c.toNat ∧ c.toNat ≤ r.2)

/-- Python `any(char.isdigit() for char in content)`, as used on message
content in both orchestrator variants. -/
def hasDigit (s : String) : Bool := s.data.any pyIsDigit

/-- Result dict of `MessageProcessingService.evaluate_escalation` (and of
the identical inline step 6 of the `create_message` route). -/
structure EscalationInfo where
  requiresEscalation : Bool
  priority : PriorityLevel
  escalationReason : Option EscalationReason
  priorityQueue : Nat
deriving DecidableEq, Repr

/-- The scenario names listed as unconditionally escalation-triggering. -/
def escalationScenarios : List String :=
  ["SCHEDULE_CHANGE", "COMPLAINT", "MISSING_TRAINER", "CROSS_EXTENSION", "UNKNOWN"]

/-- `MessageProcessingService.evaluate_escalation`: calls the escalation
manager WITHOUT the `message_content` keyword (so the manager's emotion
check never sees the body), then layers the scenario rules and the
REFERRAL-with-digits rule on top.  The `try/except` enum validations parse
the `.value` strings the manager emitted; since the manager only emits
valid members, the `except` defaults are dead, and the parse is kept
literal via `PriorityLevel.ofString`/`getD`. -/
def serviceEvaluateEscalation (db : Db) (now : Nat)
    (analyzeEmotion : String → EmotionResult)
    (scenario : String) (confidence : ℚ) (clientId content : String) : EscalationInfo :=
  let escalationResult := evaluateEscalation db now analyzeEmotion scenario confidence clientId
  let requiresEscalation :=
    scenario ∈ escalationScenarios
      ∨ (scenario = "REFERRAL" ∧ hasDigit content)
      ∨ escalationResult.shouldEscalate
  let priorityLevel := (PriorityLevel.ofString escalationResult.level.value).getD .low
  let escalationReason := escalationResult.reasons.head?
  { requiresEscalation := requiresEscalation
    priority := priorityLevel
    escalationReason := escalationReason
    priorityQueue := escalationResult.priorityQueue }

/-- Step 6 of the `create_message` route (`app/routes/messages.py`): the
same computation as `serviceEvaluateEscalation`, written inline there; the
route likewise calls the manager without `message_content`. -/
def routeEvaluateEscalation (db : Db) (now : Nat)
    (analyzeEmotion : String → EmotionResult)
    (scenario : String) (confidence : ℚ) (clientId content : String) : EscalationInfo :=
  let escalationResult := evaluateEscalation db now analyzeEmotion scenario confidence clientId
  let requiresEscalation :=
    scenario ∈ escalationScenarios
      ∨ (scenario = "REFERRAL" ∧ hasDigit content)
      ∨ escalationResult.shouldEscalate
  let priorityLevel := (PriorityLevel.ofString escalationResult.level.value).getD .low
  let escalationReason := escalationResult.reasons.head?
  { requiresEscalation := requiresEscalation
    priority := priorityLevel
    escalationReason := escalationReason
    priorityQueue := escalationResult.priorityQueue }

/-! ## Reminder service (`app/services/reminder_service.py`) -/

/-- `ReminderService.create_reminder` without the custom-delay override:
`scheduled_at` from the reminder type, retry columns at their migration-008
server defaults (`failed_attempts = 0`, `max_retry_attempts = 3`). -/
def createReminder (db : Db) (clientId : String) (messageId : Nat)
    (reminderType : ReminderType) (now : Nat) : Reminder × Db :=
  let scheduledAt :=
    match reminderType with
    | .reminder15min => now + 15 * 60
    | .reminder30min => now + 30 * 60
    | .reminder1day => now + 24 * 3600
  let r : Reminder :=
    { id := db.nextId, clientId := clientId, messageId := messageId
      reminderType := reminderType, scheduledAt := scheduledAt, sentAt := none
      isCancelled := false, failedAttempts := 0, lastFailedAt := none
      maxRetryAttempts := 3, createdAt := now }
  (r, { db with reminders := db.reminders ++ [r], nextId := db.nextId + 1 })

/-- The cancellation predicate of `ReminderService.cancel_client_reminders`:
pending reminder of the client and, when an anchor message was found, tied
to a message of the client created strictly later than the anchor. -/
def cancelCondition (db : Db) (clientId : String) (anchor : Option Message)
    (r : Reminder) : Bool :=
  let tiedAfterAnchor : Bool :=
    match anchor with
    | some msg => db.messages.any (fun m =>
        m.id = r.messageId ∧ m.clientId = clientId ∧ msg.createdAt < m.createdAt)
    | none => true
  r.clientId = clientId ∧ r.sentAt = none ∧ r.isCancelled = false
    ∧ tiedAfterAnchor = true

/-- `ReminderService.cancel_client_reminders`: selects by
`cancelCondition`, flips `is_cancelled` on each selected row, and returns
the count.  (The loop re-checks `not cancelled and unsent`, which the
selection already guarantees, so the count equals the selection size.
When `after_message_id` names no unique row, the code logs a warning and
cancels all pending reminders of the client.) -/
def cancelClientReminders (db : Db) (clientId : String)
    (afterMessageId : Option Nat := none) : Nat × Db :=
  let anchor := afterMessageId.bind (lookupMessage db)
  let cond := cancelCondition db clientId anchor
  let count := (db.reminders.filter cond).length
  (count,
    { db with reminders := db.reminders.map (fun r =>
        if cond r then { r with isCancelled := true } else r) })

/-- `ReminderService.mark_reminder_sent`. -/
def markReminderSent (db : Db) (reminderId : Nat) (now : Nat) : Bool × Db :=
  match lookupReminder db reminderId with
  | none => (false, db)
  | some _ =>
    (true,
      { db with reminders := db.reminders.map (fun r =>
          if r.id = reminderId then { r with sentAt := some now } else r) })

/-! ## Idempotent delivery layer (`app/services/webhook_sender.py`) -/

/-- One entry of the key-value marker store (Redis with `setex`):
the value is a string and the key lives until `expiresAt`. -/
structure CacheEntry where
  key : String
  value : String
  expiresAt : Nat
deriving DecidableEq, Repr

/-- The marker store. -/
abbrev Cache := List CacheEntry

/-- `RedisCache.get`: the stored string while the key has not expired. -/
def cacheGet (c : Cache) (now : Nat) (k : String) : Option String :=
  (c.find? (fun e => e.key = k)).bind
    (fun e => if now < e.expiresAt then some e.value else none)

/-- `RedisCache.set` (`setex key ttl value`): overwrite with a fresh TTL. -/
def cacheSet (c : Cache) (now : Nat) (k v : String) (ttlSeconds : Nat) : Cache :=
  ⟨k, v, now + ttlSeconds⟩ :: c.filter (fun e => e.key ≠ k)

/-- What one webhook POST comes back with, seen from `send_response`:
a status code plus the optional `message_id` of the JSON body, or a
timeout / network error.  The transport is external I/O, so it enters the
embedding as an oracle. -/
inductive TransportOutcome where
  | response (statusCode : Nat) (bodyMessageId : Option String)
  | timeout
  | networkError
deriving DecidableEq, Repr

/-- The result dict of `WebhookSender.send_response` (the fields the
callers read; `retryable` is absent — `none` — on success paths and the
callers default it to `True` via `.get("retryable", True)`). -/
structure WebhookResult where
  success : Bool
  platformMessageId : Option String
  error : Option String
  skipped : Bool := false
  retryable : Option Bool := none
  statusCode : Option Nat := none
deriving DecidableEq, Repr

/-- Either a returned dict or a raised (retryable) exception. -/
inductive SendOutcome where
  | result (r : WebhookResult)
  | raised
deriving DecidableEq, Repr

/-- `result.get("message_id") or message_id`: the body id unless it is
missing or falsy (empty string). -/
def platformMsgId (bodyMessageId : Option String) (messageId : String) : String :=
  match bodyMessageId with
  | some s => if s = "" then messageId else s
  | none => messageId

/-- The duplicate-counter bump inside the skip branch: read
`metrics:webhook_duplicates`, parse it as an integer (an unparsable value
raises and is swallowed, leaving the store untouched), and write back
`count + 1` with a 24-hour TTL.  The code only ever stores decimal
naturals, so `String.toNat?` is the parse. -/
def bumpDuplicateCounter (cache : Cache) (now : Nat) : Cache :=
  match cacheGet cache now "metrics:webhook_duplicates" with
  | none => cacheSet cache now "metrics:webhook_duplicates" (toString (0 + 1)) 86400
  | some s =>
    match s.toNat? with
    | some n => cacheSet cache now "metrics:webhook_duplicates" (toString (n + 1)) 86400
    | none => cache

/-- One un-retried pass of `WebhookSender.send_response`: the idempotency
check against the `webhook_sent:{message_id}` marker, then the POST; 200/201
caches the external id under the marker (TTL 3600 s) and succeeds, the
retryable statuses 429/502/503/504 and timeout / network errors raise (for
the `@retry` decorator), any other status returns a non-retryable failure. -/
def sendResponseOnce (cache : Cache) (now : Nat) (transport : TransportOutcome)
    (messageId : String) : SendOutcome × Cache :=
  let sentKey := "webhook_sent:" ++ messageId
  match cacheGet cache now sentKey with
  | some alreadySent =>
    (SendOutcome.result
      { success := true, platformMessageId := some alreadySent, error := none
        skipped := true },
      bumpDuplicateCounter cache now)
  | none =>
    match transport with
    | .timeout => (.raised, cache)
    | .networkError => (.raised, cache)
    | .response statusCode bodyMessageId =>
      if statusCode = 200 ∨ statusCode = 201 then
        let pmid := platformMsgId bodyMessageId messageId
        (SendOutcome.result
          { success := true, platformMessageId := some pmid, error := none
            skipped := false, statusCode := some statusCode },
          cacheSet cache now sentKey pmid 3600)
      else if statusCode = 429 ∨ statusCode = 502 ∨ statusCode = 503 ∨ statusCode = 504 then
        (.raised, cache)
      else
        (SendOutcome.result
          { success := false, platformMessageId := none
            error := some ("Platform returned " ++ toString statusCode)
            skipped := false, retryable := some false, statusCode := some statusCode },
          cache)

/-- The `@retry(stop=stop_after_attempt(3), ..., reraise=True)` wrapper:
up to three passes, each seeing the transport outcome of that attempt;
a third raise is re-raised to the caller. -/
def sendResponse (cache : Cache) (now : Nat) (transports : Nat → TransportOutcome)
    (messageId : String) : SendOutcome × Cache :=
  match sendResponseOnce cache now (transports 0) messageId with
  | (.result r, c) => (.result r, c)
  | (.raised, c1) =>
    match sendResponseOnce c1 now (transports 1) messageId with
    | (.result r, c) => (.result r, c)
    | (.raised, c2) => sendResponseOnce c2 now (transports 2) messageId

/-! ## Orchestrating route (`app/routes/messages.py`, `create_message`) -/

/-- The settings the route reads (`app/config.py`). -/
structure Settings where
  rateLimitEnabled : Bool
  rateLimitMessagePerMinute : Nat
deriving DecidableEq, Repr

/-- The external collaborators of the route, as oracles: the text
processor output, the AI classification gateway (`ai_classifier.classify`,
which in the route receives whatever `text_processor.process` returned,
including `None`), the template renderer (`ResponseManager` template lookup
plus personalization, collapsed to scenario ↦ final text, `none` when no
template exists), and the emotion pattern table. -/
structure RouteOracles where
  processText : String → Option String
  aiClassify : Option String → ClassifyResult
  render : String → Option String
  analyzeEmotion : String → EmotionResult

/-- Python falsiness of `processed_text` (`None` or the empty string). -/
def isFalsy : Option String → Bool
  | none => true
  | some s => s = ""

/-- `ResponseManager.create_bot_response`: on a rendered template, insert a
bot message row (`is_processed=True`; `is_first_message` and `priority` at
their column defaults) and return its id with the text; otherwise insert
nothing and return `none`. -/
def createBotResponse (render : String → Option String) (db : Db) (clientId scenario : String)
    (messageType : MessageType) (now : Nat) : Option (Nat × String) × Db :=
  match render scenario with
  | none => (none, db)
  | some text =>
    let m : Message :=
      { id := db.nextId, clientId := clientId, content := text
        messageType := messageType, isProcessed := true, isFirstMessage := false
        priority := .low, escalationReason := none, createdAt := now }
    (some (m.id, text), { db with messages := db.messages ++ [m], nextId := db.nextId + 1 })

/-- `ResponseManager.create_fallback_response`: a bot response for scenario
UNKNOWN with type BOT_ESCALATED. -/
def createFallbackResponse (render : String → Option String) (db : Db) (clientId : String)
    (now : Nat) : Option (Nat × String) × Db :=
  createBotResponse render db clientId "UNKNOWN" MessageType.botEscalated now

/-- What the `create_message` route hands back to the HTTP layer: the
terminal status plus the fields the claims read.  `error` is the
HTTP-500 path (an exception rolled the transaction back). -/
inductive RouteResult where
  | rateLimited
  | duplicate (originalMessageId : Nat) (responseMessageId : Option Nat)
      (classificationId : Option Nat)
  | ok (status : String) (originalMessageId : Nat) (isFirstMessage : Bool)
      (priority : PriorityLevel) (escalationReason : Option EscalationReason)
  | error
deriving DecidableEq, Repr

/-- The per-client rate-limit count of step 0.1 (messages of the client in
the trailing minute, any type). -/
def recentClientMessageCount (db : Db) (clientId : String) (now : Nat) : Nat :=
  (db.messages.filter (fun m => m.clientId = clientId ∧ now - 60 ≤ m.createdAt)).length

/-- The duplicate-branch lookup of the response to the original: earliest
bot message of the client created at or after the duplicate. -/
def duplicateResponseId (db : Db) (clientId : String) (dup : Message) : Option Nat :=
  ((sortAscBy Message.createdAt (db.messages.filter (fun m =>
      m.clientId = clientId
        ∧ (m.messageType = MessageType.botAuto ∨ m.messageType = MessageType.botEscalated)
        ∧ dup.createdAt ≤ m.createdAt))).head?).map (fun m => m.id)

/-- The duplicate-branch lookup of the original's classification: newest
classification row for the duplicate message. -/
def duplicateClassificationId (db : Db) (dup : Message) : Option Nat :=
  ((sortDescBy Classification.createdAt
    (db.classifications.filter (fun c => c.messageId = dup.id))).head?).map (fun c => c.id)

/-- Steps 1–2 of the `create_message` route: read all of the client's
messages under the exclusive wait-lock, compute `is_first_message` as
"there were none", update the dialog activity, and insert the USER row.
Returns the new row's id, the computed flag, and the new state. -/
def intakeInsert (db0 : Db) (clientId content : String) (now : Nat) :
    Nat × Bool × Db :=
  let isFirst := (db0.messages.filter (fun m => m.clientId = clientId)).length = 0
  let db1 := updateActivity db0 clientId now
  let mid := db1.nextId
  let m : Message :=
    { id := mid, clientId := clientId, content := content
      messageType := .user, isProcessed := false, isFirstMessage := isFirst
      priority := .low, escalationReason := none, createdAt := now }
  (mid, isFirst, { db1 with messages := db1.messages ++ [m], nextId := db1.nextId + 1 })

/-- Step 6's write-back on the USER row: `original_message.priority = ...;
original_message.escalation_reason = ...` (the ORM mutates the row with
id `mid`). -/
def setMessagePriority (db : Db) (mid : Nat) (pr : PriorityLevel)
    (er : Option EscalationReason) : Db :=
  { db with messages := db.messages.map (fun x =>
      if x.id = mid then { x with priority := pr, escalationReason := er } else x) }

/-- Step 9's write-back: `original_message.is_processed = True`. -/
def markProcessed (db : Db) (mid : Nat) : Db :=
  { db with messages := db.messages.map (fun x =>
      if x.id = mid then { x with isProcessed := true } else x) }

/-- Steps 8–9 of the route once the response row exists in `db8`:
create the 15-minute and 30-minute reminders for non-escalated,
non-terminal scenarios, cancel pending reminders anchored at the new
message, mark the USER row processed, commit. -/
def respondOk (db8 : Db) (clientId scenarioStr : String)
    (einfo : EscalationInfo) (mid : Nat) (isFirst : Bool) (now : Nat) :
    RouteResult × Db :=
  let db9 :=
    if ¬einfo.requiresEscalation ∧ scenarioStr ∉ ["FAREWELL", "UNKNOWN"] then
      let r15 := createReminder db8 clientId mid .reminder15min now
      (createReminder r15.2 clientId mid .reminder30min now).2
    else db8
  let db10 := (cancelClientReminders db9 clientId (some mid)).2
  let db11 := markProcessed db10 mid
  (.ok (if einfo.requiresEscalation then "escalated" else "success")
    mid isFirst einfo.priority einfo.escalationReason, db11)

/-- Steps 5–9 of the `create_message` route from state `X`, for a parsed
scenario `scen` (with `committed` the state of the last commit, to which
an exception rolls back): classification persistence; escalation
evaluation and priority assignment on the USER row `mid`; response
creation (falling back to UNKNOWN, and raising HTTP 500 when that also
fails); then `respondOk`. -/
def respondTail (o : RouteOracles) (committed X : Db)
    (clientId content : String) (cls : ClassifyResult) (scen : ScenarioType)
    (mid : Nat) (isFirst : Bool) (now : Nat) : RouteResult × Db :=
  let c : Classification :=
    { id := X.nextId, messageId := mid, detectedScenario := scen
      confidence := cls.confidence, aiModel := cls.aiModel
      reasoning := cls.reasoning, createdAt := now }
  let db5 : Db :=
    { X with classifications := X.classifications ++ [c], nextId := X.nextId + 1 }
  let einfo := routeEvaluateEscalation db5 now o.analyzeEmotion
    cls.scenario cls.confidence clientId content
  let db6 := setMessagePriority db5 mid einfo.priority einfo.escalationReason
  let primary := createBotResponse o.render db6 clientId cls.scenario
    (if einfo.requiresEscalation then .botEscalated else .botAuto) now
  let afterResponse : Option Db :=
    match primary with
    | (some _, db7) => some db7
    | (none, db7) =>
      match createFallbackResponse o.render db7 clientId now with
      | (some _, db8) => some db8
      | (none, _) => none
  match afterResponse with
  | none => (.error, committed)
  | some db8 => respondOk db8 clientId cls.scenario einfo mid isFirst now

/-- Steps 3–9 of the `create_message` route, starting from the freshly
inserted USER row `mid` in state `db2` (with `db0` the state of the last
commit, to which an exception rolls back): text processing — NOTE the
empty-text and failed-classification branches in the source create a
fallback response and commit but do not return, falling through to the
next step; then `respondTail` (an invalid scenario name raises `KeyError`,
rolling back to the last commit). -/
def processAndRespond (o : RouteOracles) (db0 db2 : Db)
    (clientId content : String) (mid : Nat) (isFirst : Bool) (now : Nat) :
    RouteResult × Db :=
  let processed := o.processText content
  -- (current state, last committed state)
  let step3 : Db × Db :=
    if isFalsy processed then
      let fb := createFallbackResponse o.render db2 clientId now
      (fb.2, fb.2)
    else (db2, db0)
  let cls := o.aiClassify processed
  let step4 : Db × Db :=
    if cls.success then step3
    else
      let fb := createFallbackResponse o.render step3.1 clientId now
      (fb.2, fb.2)
  match ScenarioType.ofString cls.scenario with
  | none => (.error, step4.2)
  | some scen => respondTail o step4.2 step4.1 clientId content cls scen mid isFirst now

/-- The `create_message` route, one atomic unit of work (the per-client
`SELECT ... FOR UPDATE` wait-lock of step 1 serializes concurrent intakes
of a client, and steps 0–9 run inside one database transaction).  Returned
is the HTTP-visible result and the database state after the call, i.e. the
state last committed.  In source order: per-client rate limit; inline
5-second duplicate check (the same query as
`MessageProcessingService.check_duplicate`) returning the original's
outcome without writing anything; then `intakeInsert` followed by
`processAndRespond`. -/
def createMessage (settings : Settings) (o : RouteOracles) (db0 : Db)
    (clientId content : String) (now : Nat) : RouteResult × Db :=
  if settings.rateLimitEnabled
      ∧ settings.rateLimitMessagePerMinute ≤ recentClientMessageCount db0 clientId now then
    (.rateLimited, db0)
  else
    match checkDuplicate db0 now clientId content with
    | some dup =>
      (.duplicate dup.id (duplicateResponseId db0 clientId dup)
        (duplicateClassificationId db0 dup), db0)
    | none =>
      let ins := intakeInsert db0 clientId content now
      processAndRespond o db0 ins.2.2 clientId content ins.1 ins.2.1 now

/-! ## Reminder sweep (`app/services/reminder_scheduler.py`, `send_reminder`) -/

/-- `ReminderScheduler.send_reminder` for one claimed reminder, one unit of
work in its own session.  `render` is the REMINDER response template,
`dispatch` the outcome of `webhook_sender.send_response` (external
transport), and `platformWebhookUrl` the settings fallback.  Paths, in
source order: a missing / cancelled / already-sent reminder is left alone;
a client USER message newer than the reminder cancels all pending reminders
of the client and commits; a failed response render returns without commit
(rolling the session back); a test client or a client with no webhook URL
anywhere gets the reminder marked sent (to avoid retrying) and committed;
otherwise the webhook is dispatched — an exception (retryable transport
failure, re-raised by the retry decorator) is caught by the outer handler
and nothing is committed; a success marks the reminder sent; a returned
failure dict increments `failed_attempts`, stamps `last_failed_at`, and
cancels the reminder exactly when the new count reaches
`max_retry_attempts` or the failure is flagged non-retryable. -/
def sendReminder (platformWebhookUrl : Option String)
    (render : String → Option String) (dispatch : SendOutcome)
    (db0 : Db) (reminderId : Nat) (clientId : String) (now : Nat) : Db :=
  match lookupReminder db0 reminderId with
  | none => db0
  | some reminder =>
    if reminder.isCancelled ∨ reminder.sentAt ≠ none then db0
    else if db0.messages.any (fun m =>
        m.clientId = clientId ∧ reminder.createdAt < m.createdAt
          ∧ m.messageType = MessageType.user) then
      (cancelClientReminders db0 clientId none).2
    else
      match createBotResponse render db0 clientId "REMINDER" MessageType.botAuto now with
      | (none, _) => db0
      | (some _, db1) =>
        let sessionUrl := (lookupSession db0 clientId).bind (fun s => s.webhookUrl)
        let reachesDispatch : Bool :=
          match sessionUrl with
          | some _ => true
          | none =>
            if clientId.startsWith "telegram_" then true
            else if clientId.startsWith "mass_test_" ∨ clientId.startsWith "test_client_" then
              false
            else platformWebhookUrl.isSome
        if reachesDispatch = false then (markReminderSent db1 reminderId now).2
        else
          match dispatch with
          | .raised => db0
          | .result w =>
            if w.success then (markReminderSent db1 reminderId now).2
            else
              { db1 with reminders := db1.reminders.map (fun r =>
                  if r.id = reminderId then
                    { r with
                        failedAttempts := r.failedAttempts + 1
                        lastFailedAt := some now
                        isCancelled :=
                          if r.maxRetryAttempts ≤ r.failedAttempts + 1
                              ∨ w.retryable.getD true = false then true
                          else r.isCancelled }
                  else r) }

/-! ## Counting helpers for the intake properties -/

/-- Number of messages of a client carrying `is_first_message = true`. -/
def countFirstMessages (db : Db) (clientId : String) : Nat :=
  (db.messages.filter (fun m => m.clientId = clientId ∧ m.isFirstMessage = true)).length

/-- Number of messages of a client (any type). -/
def countClientMessages (db : Db) (clientId : String) : Nat :=
  (db.messages.filter (fun m => m.clientId = clientId)).length

/-- Number of USER messages of a client with the given content. -/
def countUserContent (db : Db) (clientId content : String) : Nat :=
  (db.messages.filter (fun m =>
    m.clientId = clientId ∧ m.messageType = MessageType.user ∧ m.content = content)).length

/-- One intake submission: the settings and oracles in effect, the content,
and the arrival time. -/
structure IntakeStep where
  settings : Settings
  oracles : RouteOracles
  content : String
  now : Nat

/-- A serialized run of intake submissions from one client: the per-client
`SELECT ... FOR UPDATE` wait-lock of the route serializes concurrent
submissions for a client, so any concurrent schedule is some sequential
order of atomic `createMessage` steps. -/
def runIntake (clientId : String) (steps : List IntakeStep) (db : Db) : Db :=
  steps.foldl (fun d st => (createMessage st.settings st.oracles d clientId st.content st.now).2) db

/-- A fixed set of route oracles on the success path: identity text
processing, a successful GREETING classification, and a constant rendered
response. -/
def dedupOracles : RouteOracles :=
  ⟨fun s => some s, fun _ => ⟨true, "GREETING", mkRat 9 10, none, "m"⟩,
    fun _ => some "resp", fun _ => ⟨false, 0, []⟩⟩

/-! ## Generic list lemmas used by the claim proofs -/

theorem filter_map_of_preserve (f : α → α) (p : α → Bool)
    (hf : ∀ a, p (f a) = p a) (l : List α) :
    (l.map f).filter p = (l.filter p).map f := by
  induction l with
  | nil => rfl
  | cons a l ih =>
    simp only [List.map_cons, List.filter_cons, hf a]
    by_cases h : p a <;> simp [h, ih]

theorem insertDescBy_ne_nil (key : α → Nat) (a : α) (l : List α) :
    insertDescBy key a l ≠ [] := by
  cases l with
  | nil => simp [insertDescBy]
  | cons b bs =>
    unfold insertDescBy
    split <;> simp

theorem sortDescBy_eq_nil_iff (key : α → Nat) (l : List α) :
    sortDescBy key l = [] ↔ l = [] := by
  cases l with
  | nil => simp [sortDescBy]
  | cons a as =>
    simp only [sortDescBy]
    exact ⟨fun h => absurd h (insertDescBy_ne_nil key a _), fun h => by simp at h⟩

/-! ## Claim theorems -/

/-- C10: when fewer than 5 USER messages from other clients are in the
trailing 10-minute window (capped at the 100 most recent), the detector
returns `is_mass_outage = false` with `similar_messages_count` equal to the
number of messages in the window — not the number of similar ones — and
`similarity_score = 0.0`, without computing any similarity (the result is
the same for every similarity oracle `ratio`). -/
theorem detect_small_window_counts_window (db : Db) (now : Nat)
    (ratio : String → String → ℚ) (text clientId : String)
    (h : (massOutageWindow db now clientId).length < 5) :
    detectMassOutage db now ratio text clientId =
      { isMassOutage := false
        similarMessagesCount := (massOutageWindow db now clientId).length
        similarityScore := 0
        detectedAt := now } := by
  unfold detectMassOutage
  rw [if_pos h]

/-- Witness for C10: a database holding a single recent USER message from
another client (so the window has one member, below the threshold). -/
theorem detect_small_window_counts_window_witness :
    (massOutageWindow
        ⟨[⟨0, "other", "the app is down", .user, true, false, .low, none, 990⟩],
          [], [], [], 1⟩ 1000 "me").length < 5 ∧
      detectMassOutage
        ⟨[⟨0, "other", "the app is down", .user, true, false, .low, none, 990⟩],
          [], [], [], 1⟩ 1000 (fun _ _ => 1) "the app is down" "me" =
        { isMassOutage := false, similarMessagesCount := 1
          similarityScore := 0, detectedAt := 1000 } :=
  ⟨by decide,
    detect_small_window_counts_window _ 1000 (fun _ _ => 1) "the app is down" "me"
      (by decide)⟩

/-- C3: when at least 5 messages of the trailing window reach similarity
0.7 against the candidate, the classification step returns the fixed
MASS_OUTAGE result — scenario `MASS_OUTAGE`, confidence 0.95, reasoning
carrying the match count — for every possible AI answer `aiResult` (the AI
classifier is never consulted). -/
theorem mass_outage_overrides_classifier (db : Db) (now : Nat)
    (ratio : String → String → ℚ) (aiResult : ClassifyResult)
    (text clientId : String)
    (h : 5 ≤ ((massOutageWindow db now clientId).filter (fun m =>
        mkRat 7 10 ≤ calculateSimilarity ratio text m.content)).length) :
    classifyMessage db now ratio aiResult text clientId =
      { success := true
        scenario := "MASS_OUTAGE"
        confidence := mkRat 95 100
        reasoning := some ("Mass outage detected: "
          ++ toString ((massOutageWindow db now clientId).filter (fun m =>
              mkRat 7 10 ≤ calculateSimilarity ratio text m.content)).length
          ++ " similar messages")
        aiModel := "mass_outage_detector" } := by
  have hlen : ¬ ((massOutageWindow db now clientId).length < 5) := by
    have hle := List.length_filter_le (fun m =>
      decide (mkRat 7 10 ≤ calculateSimilarity ratio text m.content))
      (massOutageWindow db now clientId)
    omega
  unfold classifyMessage detectMassOutage
  rw [if_neg hlen]
  simp only [decide_eq_true_eq]
  rw [if_pos h]

/-- Witness for C3: five identical recent USER messages from five other
clients, a constant-1 similarity oracle, and an AI oracle that would have
answered GREETING. -/
theorem mass_outage_overrides_classifier_witness :
    5 ≤ ((massOutageWindow
        ⟨[⟨0, "a", "down", .user, true, false, .low, none, 995⟩,
          ⟨1, "b", "down", .user, true, false, .low, none, 996⟩,
          ⟨2, "c", "down", .user, true, false, .low, none, 997⟩,
          ⟨3, "d", "down", .user, true, false, .low, none, 998⟩,
          ⟨4, "e", "down", .user, true, false, .low, none, 999⟩],
          [], [], [], 5⟩ 1000 "me").filter (fun m =>
        mkRat 7 10 ≤ calculateSimilarity (fun _ _ => 1) "down" m.content)).length ∧
      classifyMessage
        ⟨[⟨0, "a", "down", .user, true, false, .low, none, 995⟩,
          ⟨1, "b", "down", .user, true, false, .low, none, 996⟩,
          ⟨2, "c", "down", .user, true, false, .low, none, 997⟩,
          ⟨3, "d", "down", .user, true, false, .low, none, 998⟩,
          ⟨4, "e", "down", .user, true, false, .low, none, 999⟩],
          [], [], [], 5⟩ 1000 (fun _ _ => 1)
        ⟨true, "GREETING", mkRat 99 100, none, "openai_4o_mini"⟩ "down" "me" =
        { success := true
          scenario := "MASS_OUTAGE"
          confidence := mkRat 95 100
          reasoning := some ("Mass outage detected: "
            ++ toString ((massOutageWindow
              ⟨[⟨0, "a", "down", .user, true, false, .low, none, 995⟩,
                ⟨1, "b", "down", .user, true, false, .low, none, 996⟩,
                ⟨2, "c", "down", .user, true, false, .low, none, 997⟩,
                ⟨3, "d", "down", .user, true, false, .low, none, 998⟩,
                ⟨4, "e", "down", .user, true, false, .low, none, 999⟩],
                [], [], [], 5⟩ 1000 "me").filter (fun m =>
              mkRat 7 10 ≤ calculateSimilarity (fun _ _ => 1) "down" m.content)).length
            ++ " similar messages")
          aiModel := "mass_outage_detector" } :=
  ⟨by decide,
    mass_outage_overrides_classifier _ 1000 (fun _ _ => 1)
      ⟨true, "GREETING", mkRat 99 100, none, "openai_4o_mini"⟩ "down" "me" (by decide)⟩

/-- C4: with scenario UNKNOWN the escalation manager always answers level
HIGH or CRITICAL, for every confidence, client history, emotion table and
optional content — the UNKNOWN_SCENARIO rule sets HIGH and no later rule
lowers it. -/
theorem unknown_scenario_at_least_high (db : Db) (now : Nat)
    (analyzeEmotion : String → EmotionResult) (confidence : ℚ)
    (clientId : String) (messageContent : Option String) :
    (evaluateEscalation db now analyzeEmotion "UNKNOWN" confidence clientId
        messageContent).level = EscalationLevel.high
      ∨ (evaluateEscalation db now analyzeEmotion "UNKNOWN" confidence clientId
        messageContent).level = EscalationLevel.critical := by
  unfold evaluateEscalation
  dsimp only
  by_cases h1 : confidence < mkRat 85 100 <;>
  by_cases h3 : 2 ≤ getRecentFailures db now clientId 2 <;>
  by_cases h4 : 3 ≤ getRecentRequests db now clientId 10 <;>
  by_cases h5 : hasRecentEscalations db now clientId 1 = true <;>
  rcases messageContent with _ | c <;>
  simp [h1, h3, h4, h5, bumpLevel] <;>
  by_cases hc : c = "" <;>
  by_cases hn : (analyzeEmotion c).isNegative = true <;>
  simp [hc, hn, bumpLevel]

/-- C9: in the orchestration path (both the route's inline step 6 and
`MessageProcessingService.evaluate_escalation`) the escalation outcome
depends on the message body only through the contains-a-digit check of the
REFERRAL rule: for any two contents agreeing on `hasDigit`, and even for
two different emotion tables, the results coincide — and the manager,
called without `message_content`, performs no emotion analysis at all. -/
theorem escalation_ignores_content_except_digits (db : Db) (now : Nat)
    (emo1 emo2 : String → EmotionResult) (scenario : String) (confidence : ℚ)
    (clientId c1 c2 : String) (h : hasDigit c1 = hasDigit c2) :
    serviceEvaluateEscalation db now emo1 scenario confidence clientId c1
        = serviceEvaluateEscalation db now emo2 scenario confidence clientId c2
      ∧ routeEvaluateEscalation db now emo1 scenario confidence clientId c1
        = routeEvaluateEscalation db now emo2 scenario confidence clientId c2
      ∧ (evaluateEscalation db now emo1 scenario confidence clientId none).emotionAnalysis
        = none := by
  have hm : evaluateEscalation db now emo1 scenario confidence clientId none
      = evaluateEscalation db now emo2 scenario confidence clientId none := rfl
  refine ⟨?_, ?_, rfl⟩
  · unfold serviceEvaluateEscalation
    rw [h, hm]
  · unfold routeEvaluateEscalation
    rw [h, hm]

/-- Witness for C9: one content whose only digit is the Unicode superscript
U+00B2 (which Python's `str.isdigit` accepts), one with an ASCII digit —
both pass the digit check — under two disagreeing emotion tables. -/
theorem escalation_ignores_content_except_digits_witness :
    hasDigit "x²" = hasDigit "когда занятие 3" ∧
      (serviceEvaluateEscalation Db.empty 0 (fun _ => ⟨true, 1, []⟩) "REFERRAL"
          (mkRat 9 10) "c" "x²"
        = serviceEvaluateEscalation Db.empty 0 (fun _ => ⟨false, 0, []⟩) "REFERRAL"
          (mkRat 9 10) "c" "когда занятие 3"
      ∧ routeEvaluateEscalation Db.empty 0 (fun _ => ⟨true, 1, []⟩) "REFERRAL"
          (mkRat 9 10) "c" "x²"
        = routeEvaluateEscalation Db.empty 0 (fun _ => ⟨false, 0, []⟩) "REFERRAL"
          (mkRat 9 10) "c" "когда занятие 3"
      ∧ (evaluateEscalation Db.empty 0 (fun _ => ⟨true, 1, []⟩) "REFERRAL"
          (mkRat 9 10) "c" none).emotionAnalysis = none) :=
  ⟨by decide,
    escalation_ignores_content_except_digits Db.empty 0 (fun _ => ⟨true, 1, []⟩)
      (fun _ => ⟨false, 0, []⟩) "REFERRAL" (mkRat 9 10) "c" "x²" "когда занятие 3"
      (by decide)⟩

theorem lookup_replaceSession (l : List ChatSession) (s : ChatSession)
    (clientId : String) (hs : s.clientId = clientId) :
    ((replaceSession l s).filter (fun x => x.clientId = clientId)).head? = some s := by
  induction l with
  | nil => simp [replaceSession, hs]
  | cons x xs ih =>
    unfold replaceSession
    by_cases hx : x.clientId = s.clientId
    · rw [if_pos hx]
      simp [List.filter_cons, hs]
    · rw [if_neg hx]
      have hxc : ¬ (x.clientId = clientId) := by rw [← hs]; exact hx
      simp [List.filter_cons, hxc, ih]

theorem getOrCreateSession_fst (db : Db) (clientId : String) (now : Nat) :
    (getOrCreateSession db clientId now).1 =
      (match lookupSession db clientId with
        | none => ⟨db.nextId, clientId, .open, now, none, none, none, none, none⟩
        | some old => old) := by
  unfold getOrCreateSession
  rcases lookupSession db clientId with _ | old <;> rfl

theorem updateActivity_eq (db : Db) (clientId : String) (now : Nat) :
    updateActivity db clientId now =
      (let s0 := (getOrCreateSession db clientId now).1
       let db1 := (getOrCreateSession db clientId now).2
       let s1 := if s0.status = DialogStatus.closed then
           { s0 with status := .open, closedAt := none, farewellSentAt := none }
         else s0
       { db1 with sessions := replaceSession db1.sessions { s1 with lastActivityAt := now } }) := by
  unfold updateActivity
  rcases h : getOrCreateSession db clientId now with ⟨s, db1⟩
  rfl

theorem lookupSession_clientId (db : Db) (clientId : String) (old : ChatSession)
    (h : lookupSession db clientId = some old) : old.clientId = clientId := by
  unfold lookupSession at h
  have hm := List.mem_of_mem_head? h
  simpa using (List.mem_filter.mp hm).2

/-- C8: `update_activity` get-or-creates the client's session, always sets
`last_activity_at` to now, and when the session was CLOSED it reopens it to
OPEN with `closed_at` and `farewell_sent_at` cleared; an OPEN or ESCALATED
session keeps its status and markers. -/
theorem update_activity_reopens (db : Db) (clientId : String) (now : Nat) :
    ∃ s, lookupSession (updateActivity db clientId now) clientId = some s
      ∧ s.lastActivityAt = now
      ∧ s.status = (match lookupSession db clientId with
          | none => DialogStatus.open
          | some old => if old.status = DialogStatus.closed then DialogStatus.open
              else old.status)
      ∧ s.closedAt = (match lookupSession db clientId with
          | none => none
          | some old => if old.status = DialogStatus.closed then none else old.closedAt)
      ∧ s.farewellSentAt = (match lookupSession db clientId with
          | none => none
          | some old => if old.status = DialogStatus.closed then none
              else old.farewellSentAt) := by
  rw [updateActivity_eq]
  dsimp only
  rcases h : lookupSession db clientId with _ | old
  · rw [getOrCreateSession_fst, h]
    dsimp only
    refine ⟨_, lookup_replaceSession _ _ _ rfl, rfl, by simp, by simp, by simp⟩
  · rw [getOrCreateSession_fst, h]
    dsimp only
    have hc := lookupSession_clientId db clientId old h
    by_cases hcl : old.status = DialogStatus.closed
    · rw [if_pos hcl]
      exact ⟨_, lookup_replaceSession _ _ _ hc, rfl, by simp [hcl], by simp [hcl],
        by simp [hcl]⟩
    · rw [if_neg hcl]
      exact ⟨_, lookup_replaceSession _ _ _ hc, rfl, by simp [hcl], by simp [hcl],
        by simp [hcl]⟩

/-- C6: `cancel_client_reminders` with an `after_message_id` anchor cancels
exactly the pending reminders of the client tied to messages created
strictly after the anchor message — in the two-message scenario M2's
reminder is cancelled while M1's is untouched — and returns the number of
reminders it transitioned.  The characterization conjunct spells out the
cancellation predicate; the map conjunct shows every row is either flipped
to cancelled (when the predicate holds) or left unchanged. -/
theorem cancel_after_scopes_strictly_later (db : Db) (clientId : String)
    (m1 m2 : Message) (r1 r2 : Reminder)
    (hM1 : db.messages.filter (fun m => m.id = m1.id) = [m1])
    (hm2 : m2 ∈ db.messages) (hm2c : m2.clientId = clientId)
    (ht : m1.createdAt < m2.createdAt)
    (hr1 : r1 ∈ db.reminders) (hr1c : r1.clientId = clientId)
    (hr1m : r1.messageId = m1.id) (hr1s : r1.sentAt = none)
    (hr1x : r1.isCancelled = false)
    (hr2 : r2 ∈ db.reminders) (hr2c : r2.clientId = clientId)
    (hr2m : r2.messageId = m2.id) (hr2s : r2.sentAt = none)
    (hr2x : r2.isCancelled = false) :
    (cancelClientReminders db clientId (some m1.id)).2.reminders
        = db.reminders.map (fun r =>
            if cancelCondition db clientId (some m1) r then
              { r with isCancelled := true }
            else r)
      ∧ (∀ r : Reminder, cancelCondition db clientId (some m1) r = true ↔
          (r.clientId = clientId ∧ r.sentAt = none ∧ r.isCancelled = false
            ∧ ∃ m ∈ db.messages, m.id = r.messageId ∧ m.clientId = clientId
                ∧ m1.createdAt < m.createdAt))
      ∧ cancelCondition db clientId (some m1) r2 = true
      ∧ cancelCondition db clientId (some m1) r1 = false
      ∧ (cancelClientReminders db clientId (some m1.id)).1
          = (db.reminders.filter (cancelCondition db clientId (some m1))).length := by
  have hanchor : (some m1.id).bind (lookupMessage db) = some m1 := by
    simp [lookupMessage, hM1]
  have hchar : ∀ r : Reminder, cancelCondition db clientId (some m1) r = true ↔
      (r.clientId = clientId ∧ r.sentAt = none ∧ r.isCancelled = false
        ∧ ∃ m ∈ db.messages, m.id = r.messageId ∧ m.clientId = clientId
            ∧ m1.createdAt < m.createdAt) := by
    intro r
    unfold cancelCondition
    simp [List.any_eq_true]
  refine ⟨?_, hchar, ?_, ?_, ?_⟩
  · unfold cancelClientReminders
    rw [hanchor]
  · rw [hchar]
    exact ⟨hr2c, hr2s, hr2x, m2, hm2, hr2m.symm, hm2c, ht⟩
  · have hnot : ¬ (cancelCondition db clientId (some m1) r1 = true) := by
      rw [hchar]
      rintro ⟨-, -, -, m, hm, hid, -, hlt⟩
      have hmem : m ∈ db.messages.filter (fun x => x.id = m1.id) := by
        refine List.mem_filter.mpr ⟨hm, ?_⟩
        simp [hid, hr1m]
      rw [hM1] at hmem
      simp only [List.mem_singleton] at hmem
      subst hmem
      exact absurd hlt (lt_irrefl _)
    exact Bool.eq_false_iff.mpr hnot
  · unfold cancelClientReminders
    rw [hanchor]

/-- Witness for C6: client `c` with message M1 at t=100 and M2 at t=110,
each carrying a pending reminder; cancelling after M1 selects M2's reminder
and not M1's. -/
theorem cancel_after_scopes_strictly_later_witness :
    (100 : Nat) < 110
      ∧ cancelCondition
          ⟨[⟨0, "c", "hello", .user, true, true, .low, none, 100⟩,
            ⟨1, "c", "again", .user, true, false, .low, none, 110⟩],
            [], [⟨10, "c", 0, .reminder15min, 1000, none, false, 0, none, 3, 100⟩,
                 ⟨11, "c", 1, .reminder15min, 1010, none, false, 0, none, 3, 110⟩],
            [], 12⟩ "c"
          (some ⟨0, "c", "hello", .user, true, true, .low, none, 100⟩)
          ⟨11, "c", 1, .reminder15min, 1010, none, false, 0, none, 3, 110⟩ = true
      ∧ cancelCondition
          ⟨[⟨0, "c", "hello", .user, true, true, .low, none, 100⟩,
            ⟨1, "c", "again", .user, true, false, .low, none, 110⟩],
            [], [⟨10, "c", 0, .reminder15min, 1000, none, false, 0, none, 3, 100⟩,
                 ⟨11, "c", 1, .reminder15min, 1010, none, false, 0, none, 3, 110⟩],
            [], 12⟩ "c"
          (some ⟨0, "c", "hello", .user, true, true, .low, none, 100⟩)
          ⟨10, "c", 0, .reminder15min, 1000, none, false, 0, none, 3, 100⟩ = false :=
  ⟨by decide,
    (cancel_after_scopes_strictly_later
      ⟨[⟨0, "c", "hello", .user, true, true, .low, none, 100⟩,
        ⟨1, "c", "again", .user, true, false, .low, none, 110⟩],
        [], [⟨10, "c", 0, .reminder15min, 1000, none, false, 0, none, 3, 100⟩,
             ⟨11, "c", 1, .reminder15min, 1010, none, false, 0, none, 3, 110⟩],
        [], 12⟩ "c"
      ⟨0, "c", "hello", .user, true, true, .low, none, 100⟩
      ⟨1, "c", "again", .user, true, false, .low, none, 110⟩
      ⟨10, "c", 0, .reminder15min, 1000, none, false, 0, none, 3, 100⟩
      ⟨11, "c", 1, .reminder15min, 1010, none, false, 0, none, 3, 110⟩
      (by decide) (by decide) (by decide) (by decide) (by decide) (by decide)
      (by decide) (by decide) (by decide) (by decide) (by decide) (by decide)
      (by decide) (by decide)).2.2.1,
    (cancel_after_scopes_strictly_later
      ⟨[⟨0, "c", "hello", .user, true, true, .low, none, 100⟩,
        ⟨1, "c", "again", .user, true, false, .low, none, 110⟩],
        [], [⟨10, "c", 0, .reminder15min, 1000, none, false, 0, none, 3, 100⟩,
             ⟨11, "c", 1, .reminder15min, 1010, none, false, 0, none, 3, 110⟩],
        [], 12⟩ "c"
      ⟨0, "c", "hello", .user, true, true, .low, none, 100⟩
      ⟨1, "c", "again", .user, true, false, .low, none, 110⟩
      ⟨10, "c", 0, .reminder15min, 1000, none, false, 0, none, 3, 100⟩
      ⟨11, "c", 1, .reminder15min, 1010, none, false, 0, none, 3, 110⟩
      (by decide) (by decide) (by decide) (by decide) (by decide) (by decide)
      (by decide) (by decide) (by decide) (by decide) (by decide) (by decide)
      (by decide) (by decide)).2.2.2.1⟩

/-- C7: when dispatch of a claimed pending reminder reports a delivery
failure (a returned failure dict), the sweep increments `failed_attempts`
and cancels the reminder exactly when the incremented count reaches
`max_retry_attempts` or the failure is flagged non-retryable; otherwise it
stays unsent and non-cancelled, to be retried by the next sweep. -/
theorem reminder_failure_retry_policy (db : Db) (platformWebhookUrl : Option String)
    (render : String → Option String) (w : WebhookResult)
    (rid : Nat) (clientId : String) (now : Nat) (r : Reminder) (t url : String)
    (hr : db.reminders.filter (fun x => x.id = rid) = [r])
    (hrc : r.isCancelled = false) (hrs : r.sentAt = none)
    (hnoreply : db.messages.any (fun m => m.clientId = clientId
        ∧ r.createdAt < m.createdAt ∧ m.messageType = MessageType.user) = false)
    (hrender : render "REMINDER" = some t)
    (hurl : (lookupSession db clientId).bind (fun s => s.webhookUrl) = some url)
    (hfail : w.success = false) :
    ∃ r2, lookupReminder
        (sendReminder platformWebhookUrl render (.result w) db rid clientId now) rid
        = some r2
      ∧ r2.failedAttempts = r.failedAttempts + 1
      ∧ r2.sentAt = none
      ∧ (r2.isCancelled = true ↔
          (r.maxRetryAttempts ≤ r.failedAttempts + 1 ∨ w.retryable.getD true = false)) := by
  have hlook : lookupReminder db rid = some r := by
    unfold lookupReminder
    rw [hr]
  have hrid : r.id = rid := by
    have hmem : r ∈ db.reminders.filter (fun x => x.id = rid) := by
      rw [hr]; exact List.mem_singleton_self r
    simpa using (List.mem_filter.mp hmem).2
  have hdb1 : sendReminder platformWebhookUrl render (.result w) db rid clientId now
      = { (createBotResponse render db clientId "REMINDER" MessageType.botAuto now).2 with
            reminders := db.reminders.map (fun x =>
              if x.id = rid then
                { x with
                    failedAttempts := x.failedAttempts + 1
                    lastFailedAt := some now
                    isCancelled :=
                      if x.maxRetryAttempts ≤ x.failedAttempts + 1
                          ∨ w.retryable.getD true = false then true
                      else x.isCancelled }
              else x) } := by
    unfold sendReminder
    rw [hlook]
    dsimp only
    rw [if_neg (by simp [hrc, hrs])]
    rw [if_neg (by rw [hnoreply]; simp)]
    unfold createBotResponse
    rw [hrender]
    dsimp only
    rw [hurl]
    dsimp only
    rw [if_neg (by simp)]
    rw [if_neg (by simp [hfail])]
  rw [hdb1]
  unfold lookupReminder
  have hmsg : ({ (createBotResponse render db clientId "REMINDER" MessageType.botAuto now).2 with
      reminders := db.reminders.map (fun x =>
        if x.id = rid then
          { x with
              failedAttempts := x.failedAttempts + 1
              lastFailedAt := some now
              isCancelled :=
                if x.maxRetryAttempts ≤ x.failedAttempts + 1
                    ∨ w.retryable.getD true = false then true
                else x.isCancelled }
        else x) } : Db).reminders
      = db.reminders.map (fun x =>
        if x.id = rid then
          { x with
              failedAttempts := x.failedAttempts + 1
              lastFailedAt := some now
              isCancelled :=
                if x.maxRetryAttempts ≤ x.failedAttempts + 1
                    ∨ w.retryable.getD true = false then true
                else x.isCancelled }
        else x) := rfl
  rw [hmsg]
  rw [filter_map_of_preserve _ _ (by
    intro a
    by_cases ha : a.id = rid <;> simp [ha])]
  rw [hr]
  simp only [List.map_cons, List.map_nil, hrid, if_pos rfl]
  refine ⟨_, rfl, rfl, hrs, ?_⟩
  by_cases hcond : r.maxRetryAttempts ≤ r.failedAttempts + 1 ∨ w.retryable.getD true = false
  · rw [if_pos hcond]
    simp [hcond]
  · rw [if_neg hcond]
    simp [hrc, hcond]

/-- Witness for C7: a pending reminder with 2 prior failures; a
non-retryable 400 failure dict pushes it to 3 of 3 attempts, so it is
cancelled. -/
theorem reminder_failure_retry_policy_witness :
    (⟨false, none, some "err", false, some false, some 400⟩ : WebhookResult).success = false
      ∧ ∃ r2, lookupReminder
          (sendReminder none (fun _ => some "t")
            (.result ⟨false, none, some "err", false, some false, some 400⟩)
            ⟨[], [], [⟨5, "c", 0, .reminder15min, 900, none, false, 2, none, 3, 100⟩],
              [⟨7, "c", .open, 100, none, none, some "u", none, none⟩], 8⟩ 5 "c" 1000) 5
          = some r2
        ∧ r2.failedAttempts =
            (⟨5, "c", 0, .reminder15min, 900, none, false, 2, none, 3, 100⟩
              : Reminder).failedAttempts + 1
        ∧ r2.sentAt = none
        ∧ (r2.isCancelled = true ↔
            ((⟨5, "c", 0, .reminder15min, 900, none, false, 2, none, 3, 100⟩
                : Reminder).maxRetryAttempts ≤
              (⟨5, "c", 0, .reminder15min, 900, none, false, 2, none, 3, 100⟩
                : Reminder).failedAttempts + 1
              ∨ (⟨false, none, some "err", false, some false, some 400⟩
                : WebhookResult).retryable.getD true = false)) :=
  ⟨rfl,
    reminder_failure_retry_policy
      ⟨[], [], [⟨5, "c", 0, .reminder15min, 900, none, false, 2, none, 3, 100⟩],
        [⟨7, "c", .open, 100, none, none, some "u", none, none⟩], 8⟩
      none (fun _ => some "t")
      ⟨false, none, some "err", false, some false, some 400⟩
      5 "c" 1000
      ⟨5, "c", 0, .reminder15min, 900, none, false, 2, none, 3, 100⟩
      "t" "u"
      (by decide) rfl rfl (by decide) rfl (by decide) rfl⟩

/-- C5: once a first `send_response` for a `message_id` has succeeded (and
written the 1-hour marker), any later call for the same `message_id` while
the marker is live returns `success = true`, `skipped = true` and the very
external id the first call cached, touching only the duplicate-metrics
counter — and it does so for EVERY transport oracle `T2`, i.e. no new
transport send is performed. -/
theorem send_idempotent_after_success (cache0 : Cache) (t1 t2 : Nat)
    (T1 : Nat → TransportOutcome) (messageId : String) (code : Nat)
    (body : Option String)
    (habsent : cacheGet cache0 t1 ("webhook_sent:" ++ messageId) = none)
    (hT : T1 0 = .response code body) (hcode : code = 200 ∨ code = 201)
    (ht : t2 < t1 + 3600) :
    ∃ pmid cache1,
      sendResponse cache0 t1 T1 messageId =
        (.result { success := true, platformMessageId := some pmid, error := none
                   skipped := false, retryable := none, statusCode := some code },
          cache1)
      ∧ ∀ T2 : Nat → TransportOutcome,
          sendResponse cache1 t2 T2 messageId =
            (.result { success := true, platformMessageId := some pmid, error := none
                       skipped := true, retryable := none, statusCode := none },
              bumpDuplicateCounter cache1 t2) := by
  refine ⟨platformMsgId body messageId,
    cacheSet cache0 t1 ("webhook_sent:" ++ messageId) (platformMsgId body messageId) 3600,
    ?_, ?_⟩
  · have h1 : sendResponseOnce cache0 t1 (T1 0) messageId =
        (.result { success := true, platformMessageId := some (platformMsgId body messageId)
                   error := none, skipped := false, retryable := none
                   statusCode := some code },
          cacheSet cache0 t1 ("webhook_sent:" ++ messageId)
            (platformMsgId body messageId) 3600) := by
      unfold sendResponseOnce
      dsimp only
      rw [habsent, hT]
      dsimp only
      rw [if_pos hcode]
    unfold sendResponse
    rw [h1]
  · intro T2
    have hget : cacheGet
        (cacheSet cache0 t1 ("webhook_sent:" ++ messageId)
          (platformMsgId body messageId) 3600)
        t2 ("webhook_sent:" ++ messageId) = some (platformMsgId body messageId) := by
      unfold cacheGet cacheSet
      rw [List.find?_cons_of_pos _ (by simp)]
      simp [ht]
    have h2 : sendResponseOnce
        (cacheSet cache0 t1 ("webhook_sent:" ++ messageId)
          (platformMsgId body messageId) 3600)
        t2 (T2 0) messageId =
        (.result { success := true, platformMessageId := some (platformMsgId body messageId)
                   error := none, skipped := true, retryable := none, statusCode := none },
          bumpDuplicateCounter
            (cacheSet cache0 t1 ("webhook_sent:" ++ messageId)
              (platformMsgId body messageId) 3600) t2) := by
      unfold sendResponseOnce
      dsimp only
      rw [hget]
    unfold sendResponse
    rw [h2]

/-- Witness for C5: an empty marker store, a 200 transport answer carrying
external id `ext1`, and a second call 100 seconds later. -/
theorem send_idempotent_after_success_witness :
    cacheGet [] 100 ("webhook_sent:" ++ "m1") = none
      ∧ ∃ pmid cache1,
        sendResponse [] 100 (fun _ => .response 200 (some "ext1")) "m1" =
          (.result { success := true, platformMessageId := some pmid, error := none
                     skipped := false, retryable := none, statusCode := some 200 },
            cache1)
        ∧ ∀ T2 : Nat → TransportOutcome,
            sendResponse cache1 200 T2 "m1" =
              (.result { success := true, platformMessageId := some pmid, error := none
                         skipped := true, retryable := none, statusCode := none },
                bumpDuplicateCounter cache1 200) :=
  ⟨rfl,
    send_idempotent_after_success [] 100 200 (fun _ => .response 200 (some "ext1"))
      "m1" 200 (some "ext1") rfl rfl (Or.inl rfl) (by decide)⟩

theorem length_filter_map_preserve (l : List α) (g : α → α) (p : α → Bool)
    (h : ∀ a, p (g a) = p a) : ((l.map g).filter p).length = (l.filter p).length := by
  rw [filter_map_of_preserve g p h l, List.length_map]

theorem getOrCreateSession_messages (db : Db) (c : String) (n : Nat) :
    (getOrCreateSession db c n).2.messages = db.messages := by
  unfold getOrCreateSession
  rcases lookupSession db c with _ | old <;> rfl

theorem updateActivity_messages (db : Db) (c : String) (n : Nat) :
    (updateActivity db c n).messages = db.messages := by
  rw [updateActivity_eq]
  exact getOrCreateSession_messages db c n

theorem createReminder_messages (db : Db) (c : String) (mid : Nat)
    (rt : ReminderType) (now : Nat) :
    (createReminder db c mid rt now).2.messages = db.messages := by
  unfold createReminder
  rcases rt <;> rfl

theorem cancelClientReminders_messages (db : Db) (c : String) (a : Option Nat) :
    (cancelClientReminders db c a).2.messages = db.messages := rfl

theorem countFirst_createBotResponse (render : String → Option String) (db : Db)
    (c sc : String) (mt : MessageType) (now : Nat) (cl : String) :
    countFirstMessages (createBotResponse render db c sc mt now).2 cl
      = countFirstMessages db cl := by
  unfold createBotResponse countFirstMessages
  rcases render sc with _ | t
  · rfl
  · simp [List.filter_append]

theorem countClient_createBotResponse_ge (render : String → Option String) (db : Db)
    (c sc : String) (mt : MessageType) (now : Nat) (cl : String) :
    countClientMessages db cl
      ≤ countClientMessages (createBotResponse render db c sc mt now).2 cl := by
  unfold createBotResponse countClientMessages
  rcases render sc with _ | t
  · simp
  · dsimp only
    rw [List.filter_append, List.length_append]
    omega

theorem countClient_createBotResponse_ne (render : String → Option String) (db : Db)
    (c sc : String) (mt : MessageType) (now : Nat) (cl : String) (h : ¬ cl = c) :
    countClientMessages (createBotResponse render db c sc mt now).2 cl
      = countClientMessages db cl := by
  unfold createBotResponse countClientMessages
  rcases render sc with _ | t
  · rfl
  · dsimp only
    rw [List.filter_append]
    have : ¬ (c = cl) := fun hc => h hc.symm
    simp [this]

theorem cfilter_prioUpdate (l : List Message) (mid : Nat) (pr : PriorityLevel)
    (er : Option EscalationReason) (cl : String) :
    ((l.map (fun x => if x.id = mid then
        { x with priority := pr, escalationReason := er } else x)).filter
        (fun m => m.clientId = cl ∧ m.isFirstMessage = true)).length
      = (l.filter (fun m => m.clientId = cl ∧ m.isFirstMessage = true)).length :=
  length_filter_map_preserve l _ _ (by
    intro a
    by_cases h : a.id = mid <;> simp [h])

theorem ccfilter_prioUpdate (l : List Message) (mid : Nat) (pr : PriorityLevel)
    (er : Option EscalationReason) (cl : String) :
    ((l.map (fun x => if x.id = mid then
        { x with priority := pr, escalationReason := er } else x)).filter
        (fun m => m.clientId = cl)).length
      = (l.filter (fun m => m.clientId = cl)).length :=
  length_filter_map_preserve l _ _ (by
    intro a
    by_cases h : a.id = mid <;> simp [h])

theorem cfilter_procUpdate (l : List Message) (mid : Nat) (cl : String) :
    ((l.map (fun x => if x.id = mid then { x with isProcessed := true } else x)).filter
        (fun m => m.clientId = cl ∧ m.isFirstMessage = true)).length
      = (l.filter (fun m => m.clientId = cl ∧ m.isFirstMessage = true)).length :=
  length_filter_map_preserve l _ _ (by
    intro a
    by_cases h : a.id = mid <;> simp [h])

theorem ccfilter_procUpdate (l : List Message) (mid : Nat) (cl : String) :
    ((l.map (fun x => if x.id = mid then { x with isProcessed := true } else x)).filter
        (fun m => m.clientId = cl)).length
      = (l.filter (fun m => m.clientId = cl)).length :=
  length_filter_map_preserve l _ _ (by
    intro a
    by_cases h : a.id = mid <;> simp [h])


theorem countFirst_setMessagePriority (db : Db) (mid : Nat) (pr : PriorityLevel)
    (er : Option EscalationReason) (cl : String) :
    countFirstMessages (setMessagePriority db mid pr er) cl = countFirstMessages db cl := by
  unfold setMessagePriority countFirstMessages
  exact cfilter_prioUpdate db.messages mid pr er cl

theorem countClient_setMessagePriority (db : Db) (mid : Nat) (pr : PriorityLevel)
    (er : Option EscalationReason) (cl : String) :
    countClientMessages (setMessagePriority db mid pr er) cl = countClientMessages db cl := by
  unfold setMessagePriority countClientMessages
  exact ccfilter_prioUpdate db.messages mid pr er cl

theorem countFirst_markProcessed (db : Db) (mid : Nat) (cl : String) :
    countFirstMessages (markProcessed db mid) cl = countFirstMessages db cl := by
  unfold markProcessed countFirstMessages
  exact cfilter_procUpdate db.messages mid cl

theorem countClient_markProcessed (db : Db) (mid : Nat) (cl : String) :
    countClientMessages (markProcessed db mid) cl = countClientMessages db cl := by
  unfold markProcessed countClientMessages
  exact ccfilter_procUpdate db.messages mid cl

theorem countFirst_cancelClientReminders (db : Db) (c : String) (a : Option Nat)
    (cl : String) :
    countFirstMessages (cancelClientReminders db c a).2 cl = countFirstMessages db cl := rfl

theorem countClient_cancelClientReminders (db : Db) (c : String) (a : Option Nat)
    (cl : String) :
    countClientMessages (cancelClientReminders db c a).2 cl = countClientMessages db cl := rfl

theorem countFirst_createReminder (db : Db) (c : String) (mid : Nat)
    (rt : ReminderType) (now : Nat) (cl : String) :
    countFirstMessages (createReminder db c mid rt now).2 cl = countFirstMessages db cl := by
  unfold countFirstMessages
  rw [createReminder_messages]

theorem countClient_createReminder (db : Db) (c : String) (mid : Nat)
    (rt : ReminderType) (now : Nat) (cl : String) :
    countClientMessages (createReminder db c mid rt now).2 cl = countClientMessages db cl := by
  unfold countClientMessages
  rw [createReminder_messages]

theorem respondOk_counts (db8 : Db) (clientId scenarioStr : String)
    (einfo : EscalationInfo) (mid : Nat) (isFirst : Bool) (now : Nat) (cl : String) :
    countFirstMessages (respondOk db8 clientId scenarioStr einfo mid isFirst now).2 cl
        = countFirstMessages db8 cl
      ∧ countClientMessages (respondOk db8 clientId scenarioStr einfo mid isFirst now).2 cl
        = countClientMessages db8 cl := by
  unfold respondOk
  dsimp only
  rw [countFirst_markProcessed, countClient_markProcessed,
    countFirst_cancelClientReminders, countClient_cancelClientReminders]
  constructor
  · split
    · rw [countFirst_createReminder, countFirst_createReminder]
    · rfl
  · split
    · rw [countClient_createReminder, countClient_createReminder]
    · rfl


theorem countFirst_createFallbackResponse (render : String → Option String) (db : Db)
    (c : String) (now : Nat) (cl : String) :
    countFirstMessages (createFallbackResponse render db c now).2 cl
      = countFirstMessages db cl := by
  unfold createFallbackResponse
  exact countFirst_createBotResponse render db c "UNKNOWN" .botEscalated now cl

theorem countClient_createFallbackResponse_ge (render : String → Option String) (db : Db)
    (c : String) (now : Nat) (cl : String) :
    countClientMessages db cl
      ≤ countClientMessages (createFallbackResponse render db c now).2 cl := by
  unfold createFallbackResponse
  exact countClient_createBotResponse_ge render db c "UNKNOWN" .botEscalated now cl

theorem countClient_createFallbackResponse_ne (render : String → Option String) (db : Db)
    (c : String) (now : Nat) (cl : String) (h : ¬ cl = c) :
    countClientMessages (createFallbackResponse render db c now).2 cl
      = countClientMessages db cl := by
  unfold createFallbackResponse
  exact countClient_createBotResponse_ne render db c "UNKNOWN" .botEscalated now cl h

theorem respondTail_counts (o : RouteOracles) (committed X : Db)
    (clientId content : String) (cls : ClassifyResult) (scen : ScenarioType)
    (mid : Nat) (isFirst : Bool) (now : Nat) (cl : String) :
    (respondTail o committed X clientId content cls scen mid isFirst now).2 = committed
    ∨ (countFirstMessages
          (respondTail o committed X clientId content cls scen mid isFirst now).2 cl
          = countFirstMessages X cl
        ∧ countClientMessages X cl
          ≤ countClientMessages
              (respondTail o committed X clientId content cls scen mid isFirst now).2 cl
        ∧ (¬ cl = clientId →
            countClientMessages
                (respondTail o committed X clientId content cls scen mid isFirst now).2 cl
              = countClientMessages X cl)) := by
  unfold respondTail
  dsimp only
  split
  · exact Or.inl rfl
  next db8 heq =>
    right
    have key : countFirstMessages db8 cl = countFirstMessages X cl
        ∧ countClientMessages X cl ≤ countClientMessages db8 cl
        ∧ (¬ cl = clientId → countClientMessages db8 cl = countClientMessages X cl) := by
      split at heq
      next v db7 hp =>
        cases heq
        have h7 := congrArg Prod.snd hp
        dsimp only at h7
        rw [← h7]
        refine ⟨?_, ?_, fun hne => ?_⟩
        · rw [countFirst_createBotResponse, countFirst_setMessagePriority]
          exact rfl
        · refine le_trans (le_of_eq ?_) (countClient_createBotResponse_ge _ _ _ _ _ _ _)
          exact (countClient_setMessagePriority _ _ _ _ _).symm
        · rw [countClient_createBotResponse_ne _ _ _ _ _ _ _ hne,
            countClient_setMessagePriority]
          exact rfl
      next db7 hp =>
        have h7 := congrArg Prod.snd hp
        dsimp only at h7
        split at heq
        next v2 db9 hq =>
          cases heq
          have h9 := congrArg Prod.snd hq
          dsimp only at h9
          rw [← h9, ← h7]
          refine ⟨?_, ?_, fun hne => ?_⟩
          · rw [countFirst_createFallbackResponse, countFirst_createBotResponse,
              countFirst_setMessagePriority]
            exact rfl
          · refine le_trans ?_ (countClient_createFallbackResponse_ge _ _ _ _ _)
            refine le_trans (le_of_eq ?_) (countClient_createBotResponse_ge _ _ _ _ _ _ _)
            exact (countClient_setMessagePriority _ _ _ _ _).symm
          · rw [countClient_createFallbackResponse_ne _ _ _ _ _ hne,
              countClient_createBotResponse_ne _ _ _ _ _ _ _ hne,
              countClient_setMessagePriority]
            exact rfl
        next hq =>
          cases heq
    rw [(respondOk_counts db8 clientId cls.scenario _ mid isFirst now cl).1,
      (respondOk_counts db8 clientId cls.scenario _ mid isFirst now cl).2]
    exact key


theorem processAndRespond_counts (o : RouteOracles) (db0 db2 : Db)
    (clientId content : String) (mid : Nat) (isFirst : Bool) (now : Nat) (cl : String) :
    (processAndRespond o db0 db2 clientId content mid isFirst now).2 = db0
    ∨ (countFirstMessages (processAndRespond o db0 db2 clientId content mid isFirst now).2 cl
          = countFirstMessages db2 cl
        ∧ countClientMessages db2 cl
          ≤ countClientMessages (processAndRespond o db0 db2 clientId content mid isFirst now).2 cl
        ∧ (¬ cl = clientId →
            countClientMessages (processAndRespond o db0 db2 clientId content mid isFirst now).2 cl
              = countClientMessages db2 cl)) := by
  unfold processAndRespond
  dsimp only
  by_cases hfal : isFalsy (o.processText content) = true <;>
    by_cases hsucc : (o.aiClassify (o.processText content)).success = true <;>
    simp only [hfal, hsucc, if_true, if_false, ite_true, ite_false, Bool.false_eq_true]
  -- (t, t): committed and current are the db2-fallback state
  · split
    · right
      refine ⟨by rw [countFirst_createFallbackResponse],
        countClient_createFallbackResponse_ge _ _ _ _ _,
        fun hne => by rw [countClient_createFallbackResponse_ne _ _ _ _ _ hne]⟩
    next scen hscen =>
      rcases respondTail_counts o
          (createFallbackResponse o.render db2 clientId now).2
          (createFallbackResponse o.render db2 clientId now).2
          clientId content (o.aiClassify (o.processText content)) scen mid isFirst now cl
        with h | ⟨h1, h2, h3⟩
      · right
        rw [h]
        refine ⟨by rw [countFirst_createFallbackResponse],
          countClient_createFallbackResponse_ge _ _ _ _ _,
          fun hne => by rw [countClient_createFallbackResponse_ne _ _ _ _ _ hne]⟩
      · right
        refine ⟨by rw [h1, countFirst_createFallbackResponse],
          le_trans (countClient_createFallbackResponse_ge _ _ _ _ _) h2,
          fun hne => by rw [h3 hne, countClient_createFallbackResponse_ne _ _ _ _ _ hne]⟩
  -- (t, f): current and committed are the double-fallback state
  · split
    · right
      refine ⟨by rw [countFirst_createFallbackResponse, countFirst_createFallbackResponse],
        le_trans (countClient_createFallbackResponse_ge _ _ _ _ _)
          (countClient_createFallbackResponse_ge _ _ _ _ _),
        fun hne => by
          rw [countClient_createFallbackResponse_ne _ _ _ _ _ hne,
            countClient_createFallbackResponse_ne _ _ _ _ _ hne]⟩
    next scen hscen =>
      rcases respondTail_counts o
          (createFallbackResponse o.render
            (createFallbackResponse o.render db2 clientId now).2 clientId now).2
          (createFallbackResponse o.render
            (createFallbackResponse o.render db2 clientId now).2 clientId now).2
          clientId content (o.aiClassify (o.processText content)) scen mid isFirst now cl
        with h | ⟨h1, h2, h3⟩
      · right
        rw [h]
        refine ⟨by rw [countFirst_createFallbackResponse, countFirst_createFallbackResponse],
          le_trans (countClient_createFallbackResponse_ge _ _ _ _ _)
            (countClient_createFallbackResponse_ge _ _ _ _ _),
          fun hne => by
            rw [countClient_createFallbackResponse_ne _ _ _ _ _ hne,
              countClient_createFallbackResponse_ne _ _ _ _ _ hne]⟩
      · right
        refine ⟨by
            rw [h1, countFirst_createFallbackResponse, countFirst_createFallbackResponse],
          le_trans (le_trans (countClient_createFallbackResponse_ge _ _ _ _ _)
            (countClient_createFallbackResponse_ge _ _ _ _ _)) h2,
          fun hne => by
            rw [h3 hne, countClient_createFallbackResponse_ne _ _ _ _ _ hne,
              countClient_createFallbackResponse_ne _ _ _ _ _ hne]⟩
  -- (f, t): current db2, committed db0
  · split
    · exact Or.inl rfl
    next scen hscen =>
      rcases respondTail_counts o db0 db2
          clientId content (o.aiClassify (o.processText content)) scen mid isFirst now cl
        with h | ⟨h1, h2, h3⟩
      · exact Or.inl h
      · exact Or.inr ⟨h1, h2, h3⟩
  -- (f, f): current and committed are the single-fallback state over db2
  · split
    · right
      refine ⟨by rw [countFirst_createFallbackResponse],
        countClient_createFallbackResponse_ge _ _ _ _ _,
        fun hne => by rw [countClient_createFallbackResponse_ne _ _ _ _ _ hne]⟩
    next scen hscen =>
      rcases respondTail_counts o
          (createFallbackResponse o.render db2 clientId now).2
          (createFallbackResponse o.render db2 clientId now).2
          clientId content (o.aiClassify (o.processText content)) scen mid isFirst now cl
        with h | ⟨h1, h2, h3⟩
      · right
        rw [h]
        refine ⟨by rw [countFirst_createFallbackResponse],
          countClient_createFallbackResponse_ge _ _ _ _ _,
          fun hne => by rw [countClient_createFallbackResponse_ne _ _ _ _ _ hne]⟩
      · right
        refine ⟨by rw [h1, countFirst_createFallbackResponse],
          le_trans (countClient_createFallbackResponse_ge _ _ _ _ _) h2,
          fun hne => by rw [h3 hne, countClient_createFallbackResponse_ne _ _ _ _ _ hne]⟩


theorem intakeInsert_counts (db0 : Db) (client content : String) (now : Nat) (cl : String) :
    (cl = client →
       countFirstMessages (intakeInsert db0 client content now).2.2 cl
         = countFirstMessages db0 cl
           + (if countClientMessages db0 client = 0 then 1 else 0)
       ∧ countClientMessages (intakeInsert db0 client content now).2.2 cl
         = countClientMessages db0 cl + 1)
    ∧ (¬ cl = client →
       countFirstMessages (intakeInsert db0 client content now).2.2 cl
         = countFirstMessages db0 cl
       ∧ countClientMessages (intakeInsert db0 client content now).2.2 cl
         = countClientMessages db0 cl) := by
  unfold intakeInsert countFirstMessages countClientMessages
  dsimp only
  rw [updateActivity_messages]
  constructor
  · rintro rfl
    rw [List.filter_append, List.filter_append, List.length_append, List.length_append]
    by_cases hz : (db0.messages.filter (fun m => m.clientId = cl)).length = 0
    · simp [hz]
    · simp [hz]
  · intro hne
    rw [List.filter_append, List.filter_append, List.length_append, List.length_append]
    have : ¬ (client = cl) := fun h => hne h.symm
    simp [this]

theorem countFirst_le_countClient (db : Db) (cl : String) :
    countFirstMessages db cl ≤ countClientMessages db cl := by
  unfold countFirstMessages countClientMessages
  rw [← List.countP_eq_length_filter, ← List.countP_eq_length_filter]
  refine List.countP_mono_left ?_
  intro a _ ha
  simp only [decide_eq_true_eq] at ha ⊢
  exact ha.1

theorem createMessage_counts (s : Settings) (o : RouteOracles) (db : Db)
    (client content : String) (now : Nat) (cl : String) :
    (countFirstMessages (createMessage s o db client content now).2 cl
        = countFirstMessages db cl
      ∧ countClientMessages (createMessage s o db client content now).2 cl
        = countClientMessages db cl)
    ∨ (cl = client
        ∧ countFirstMessages (createMessage s o db client content now).2 cl
          = countFirstMessages db cl
            + (if countClientMessages db client = 0 then 1 else 0)
        ∧ countClientMessages db cl
          < countClientMessages (createMessage s o db client content now).2 cl) := by
  unfold createMessage
  split
  · exact Or.inl ⟨rfl, rfl⟩
  split
  · exact Or.inl ⟨rfl, rfl⟩
  dsimp only
  rcases processAndRespond_counts o db (intakeInsert db client content now).2.2
      client content (intakeInsert db client content now).1
      (intakeInsert db client content now).2.1 now cl
    with h | ⟨h1, h2, h3⟩
  · rw [h]
    exact Or.inl ⟨rfl, rfl⟩
  · obtain ⟨hin_eq, hin_ne⟩ := intakeInsert_counts db client content now cl
    by_cases hcl : cl = client
    · right
      obtain ⟨hf2, hc2⟩ := hin_eq hcl
      refine ⟨hcl, ?_, ?_⟩
      · rw [h1, hf2]
      · subst hcl
        omega
    · left
      obtain ⟨hf2, hc2⟩ := hin_ne hcl
      exact ⟨by rw [h1, hf2], by rw [h3 hcl, hc2]⟩




/-- C2: first-message uniqueness.  (a) The per-client invariant "at most
one message of a client carries `is_first_message = true`" is preserved by
every intake step (any submitter, any oracles), because the flag is
computed as "no rows existed" inside the exclusive per-client critical
section that also performs the insert.  (b) For any serialized run of
intake submissions from a brand-new client (the wait-lock serializes
concurrent submissions), at most one message is flagged, and exactly one
as soon as any message of the client exists.  (c)
`determine_first_message` of the service variant computes exactly
"the client has no messages". -/
theorem first_message_unique :
    (∀ (s : Settings) (o : RouteOracles) (db : Db) (client content : String)
        (now : Nat) (cl : String),
      countFirstMessages db cl ≤ 1 →
        countFirstMessages (createMessage s o db client content now).2 cl ≤ 1)
    ∧ (∀ (client : String) (steps : List IntakeStep) (db0 : Db),
        countClientMessages db0 client = 0 →
          countFirstMessages (runIntake client steps db0) client ≤ 1
          ∧ (countClientMessages (runIntake client steps db0) client ≠ 0 →
              countFirstMessages (runIntake client steps db0) client = 1))
    ∧ (∀ (db : Db) (client : String),
        determineFirstMessage db client = true ↔ countClientMessages db client = 0) := by
  refine ⟨?_, ?_, ?_⟩
  · intro s o db client content now cl h
    rcases createMessage_counts s o db client content now cl with ⟨h1, _⟩ | ⟨hcl, h1, _⟩
    · rw [h1]
      exact h
    · rw [h1]
      subst hcl
      by_cases hz : countClientMessages db cl = 0
      · have hle := countFirst_le_countClient db cl
        simp [hz]
        omega
      · simp [hz]
        exact h
  · intro client steps db0 h0
    have h00 : countFirstMessages db0 client = 0 := by
      have := countFirst_le_countClient db0 client
      omega
    suffices hQ : ∀ (d : Db),
        ((countFirstMessages d client = 0 ∧ countClientMessages d client = 0)
          ∨ (countFirstMessages d client = 1 ∧ countClientMessages d client ≠ 0)) →
        ((countFirstMessages (runIntake client steps d) client = 0
            ∧ countClientMessages (runIntake client steps d) client = 0)
          ∨ (countFirstMessages (runIntake client steps d) client = 1
            ∧ countClientMessages (runIntake client steps d) client ≠ 0)) by
      rcases hQ db0 (Or.inl ⟨h00, h0⟩) with ⟨hf, hc⟩ | ⟨hf, hc⟩
      · exact ⟨by omega, fun hn => absurd hc hn⟩
      · exact ⟨by omega, fun _ => hf⟩
    induction steps with
    | nil => exact fun d hd => hd
    | cons st rest ih =>
      intro d hd
      have hstep : (countFirstMessages
            (createMessage st.settings st.oracles d client st.content st.now).2 client = 0
          ∧ countClientMessages
            (createMessage st.settings st.oracles d client st.content st.now).2 client = 0)
          ∨ (countFirstMessages
            (createMessage st.settings st.oracles d client st.content st.now).2 client = 1
          ∧ countClientMessages
            (createMessage st.settings st.oracles d client st.content st.now).2 client ≠ 0) := by
        rcases createMessage_counts st.settings st.oracles d client st.content st.now client
          with ⟨h1, h2⟩ | ⟨-, h1, h2⟩
        · rw [h1, h2]
          exact hd
        · rcases hd with ⟨hf, hc⟩ | ⟨hf, hc⟩
          · right
            constructor
            · rw [h1, hf, hc]
              simp
            · omega
          · right
            constructor
            · rw [h1, hf]
              simp [hc]
            · omega
      have : runIntake client (st :: rest) d
          = runIntake client rest
              (createMessage st.settings st.oracles d client st.content st.now).2 := by
        unfold runIntake
        rw [List.foldl_cons]
      rw [this]
      exact ih _ hstep
  · intro db client
    unfold determineFirstMessage countClientMessages
    simp

/-- Witness for C2: a single submission from a brand-new client under
benign oracles; the invariant components are applied at that input. -/
theorem first_message_unique_witness :
    countClientMessages Db.empty "c" = 0
      ∧ countFirstMessages
          (runIntake "c"
            [⟨⟨false, 10⟩,
              ⟨fun s => some s, fun _ => ⟨true, "GREETING", mkRat 9 10, none, "m"⟩,
                fun _ => some "resp", fun _ => ⟨false, 0, []⟩⟩, "hi", 100⟩]
            Db.empty) "c" ≤ 1
      ∧ (countClientMessages
            (runIntake "c"
              [⟨⟨false, 10⟩,
                ⟨fun s => some s, fun _ => ⟨true, "GREETING", mkRat 9 10, none, "m"⟩,
                  fun _ => some "resp", fun _ => ⟨false, 0, []⟩⟩, "hi", 100⟩]
              Db.empty) "c" ≠ 0 →
          countFirstMessages
            (runIntake "c"
              [⟨⟨false, 10⟩,
                ⟨fun s => some s, fun _ => ⟨true, "GREETING", mkRat 9 10, none, "m"⟩,
                  fun _ => some "resp", fun _ => ⟨false, 0, []⟩⟩, "hi", 100⟩]
              Db.empty) "c" = 1) :=
  ⟨rfl,
    (first_message_unique.2.1 "c"
      [⟨⟨false, 10⟩,
        ⟨fun s => some s, fun _ => ⟨true, "GREETING", mkRat 9 10, none, "m"⟩,
          fun _ => some "resp", fun _ => ⟨false, 0, []⟩⟩, "hi", 100⟩]
      Db.empty (by decide)).1,
    (first_message_unique.2.1 "c"
      [⟨⟨false, 10⟩,
        ⟨fun s => some s, fun _ => ⟨true, "GREETING", mkRat 9 10, none, "m"⟩,
          fun _ => some "resp", fun _ => ⟨false, 0, []⟩⟩, "hi", 100⟩]
      Db.empty (by decide)).2⟩

/-- The conditional reminder creation of step 8 leaves the message table alone. -/
theorem messages_reminderStep (db8 : Db) (c : Prop) [Decidable c]
    (clientId : String) (mid now : Nat) :
    (if c then
        (createReminder (createReminder db8 clientId mid .reminder15min now).2
          clientId mid .reminder30min now).2
      else db8).messages = db8.messages := by
  split <;> simp [createReminder_messages]

/-- Messages after `respondOk`: only the `is_processed` write-back on row `mid`. -/
theorem respondOk_messages (db8 : Db) (clientId scenarioStr : String)
    (einfo : EscalationInfo) (mid : Nat) (isFirst : Bool) (now : Nat) :
    (respondOk db8 clientId scenarioStr einfo mid isFirst now).2.messages
      = db8.messages.map (fun x =>
          if x.id = mid then { x with isProcessed := true } else x) := by
  unfold respondOk markProcessed
  dsimp only
  rw [cancelClientReminders_messages, messages_reminderStep]

/-- Messages after `intakeInsert`: the old table plus the new USER row. -/
theorem intakeInsert_messages (db0 : Db) (c ct : String) (t : Nat) :
    (intakeInsert db0 c ct t).2.2.messages
      = db0.messages
        ++ [{ id := (intakeInsert db0 c ct t).1, clientId := c, content := ct
              messageType := .user, isProcessed := false
              isFirstMessage :=
                decide ((db0.messages.filter (fun m => m.clientId = c)).length = 0)
              priority := .low, escalationReason := none, createdAt := t }] := by
  unfold intakeInsert
  dsimp only
  rw [updateActivity_messages]

/-- Shape of a fully successful `create_message` call: the result is `ok`
carrying the new USER row id and first-message flag, and the message table
gains exactly the USER row and one bot response row (of a non-USER type),
plus the priority and processed write-backs on the USER row. -/
theorem createMessage_success_shape (s : Settings) (o : RouteOracles) (db0 : Db)
    (client content : String) (now : Nat) (p rtext : String) (cls : ClassifyResult)
    (scen : ScenarioType)
    (hs : s.rateLimitEnabled = false)
    (hnodup : checkDuplicate db0 now client content = none)
    (hproc : o.processText content = some p) (hp : ¬ p = "")
    (hai : o.aiClassify (some p) = cls) (hsucc : cls.success = true)
    (hscen : ScenarioType.ofString cls.scenario = some scen)
    (hrender : o.render cls.scenario = some rtext) :
    ∃ (st : String) (pr : PriorityLevel) (er : Option EscalationReason)
      (mt : MessageType) (n : Nat),
      (createMessage s o db0 client content now).1
        = RouteResult.ok st (intakeInsert db0 client content now).1
            (intakeInsert db0 client content now).2.1 pr er
      ∧ (createMessage s o db0 client content now).2.messages
        = (((intakeInsert db0 client content now).2.2.messages.map (fun (x : Message) =>
              if x.id = (intakeInsert db0 client content now).1 then
                { x with priority := pr, escalationReason := er }
              else x))
            ++ [({ id := n, clientId := client, content := rtext, messageType := mt
                   isProcessed := true, isFirstMessage := false
                   priority := .low, escalationReason := none
                   createdAt := now } : Message)]).map
            (fun (x : Message) =>
              if x.id = (intakeInsert db0 client content now).1 then
                { x with isProcessed := true }
              else x)
      ∧ mt ≠ MessageType.user := by
  unfold createMessage
  rw [if_neg (by simp [hs])]
  simp only [hnodup]
  unfold processAndRespond
  simp only [hproc]
  have hfal : ¬ (isFalsy (some p) = true) := by simp [isFalsy, hp]
  rw [if_neg hfal, hai, if_pos hsucc]
  simp only [hscen]
  unfold respondTail createBotResponse
  simp only [hrender]
  exact ⟨_, _, _, _, _, rfl, by rw [respondOk_messages]; rfl, by split <;> simp⟩


/-- A filter by a stronger predicate of a list with no rows passing a weaker
one is empty. -/
theorem filter_eq_nil_of_imp (l : List α) (p q : α → Bool)
    (h : ∀ x, p x = true → q x = true) (hq : l.filter q = []) :
    l.filter p = [] := by
  induction l with
  | nil => rfl
  | cons a as ih =>
    rw [List.filter_cons] at hq ⊢
    by_cases hqa : q a = true
    · rw [if_pos hqa] at hq
      exact absurd hq (by simp)
    · have hpa : ¬ p a = true := fun hp => hqa (h a hp)
      rw [if_neg hqa] at hq
      rw [if_neg hpa]
      exact ih hq

/-- When exactly one row matches the dedup query, `check_duplicate` returns it. -/
theorem checkDuplicate_of_filter_singleton (db : Db) (now : Nat)
    (client content : String) (a : Message)
    (h : db.messages.filter (fun m =>
        m.clientId = client ∧ m.content = content ∧ now - 5 ≤ m.createdAt) = [a]) :
    checkDuplicate db now client content = some a := by
  unfold checkDuplicate
  rw [h]
  rfl

/-- The duplicate branch of the route: a hit in the 5-second window returns
the original message id with the looked-up response and classification ids,
and writes nothing. -/
theorem duplicate_branch (s : Settings) (o : RouteOracles) (db : Db)
    (client content : String) (t : Nat) (a : Message)
    (hs : s.rateLimitEnabled = false)
    (hdup : checkDuplicate db t client content = some a) :
    createMessage s o db client content t
      = (.duplicate a.id (duplicateResponseId db client a)
          (duplicateClassificationId db a), db) := by
  unfold createMessage
  rw [if_neg (by simp [hs]), hdup]

/-- Filtering the message table left by a successful call, for any predicate
that ignores the priority, escalation-reason and processed write-backs and
rejects the old rows and the bot row: exactly the new USER row matches. -/
theorem filter_route_messages (dbm : List Message) (uR bR : Message)
    (pr : PriorityLevel) (er : Option EscalationReason) (mid : Nat)
    (msgs : List Message) (f : Message → Bool)
    (hm : msgs = ((dbm ++ [uR]).map (fun (x : Message) =>
            if x.id = mid then { x with priority := pr, escalationReason := er } else x)
          ++ [bR]).map (fun (x : Message) =>
            if x.id = mid then { x with isProcessed := true } else x))
    (hid : uR.id = mid)
    (hpres1 : ∀ x : Message,
      f (if x.id = mid then { x with priority := pr, escalationReason := er } else x) = f x)
    (hpres2 : ∀ x : Message,
      f (if x.id = mid then { x with isProcessed := true } else x) = f x)
    (h0 : dbm.filter f = []) (hu : f uR = true) (hb : f bR = false) :
    msgs.filter f
      = [{ uR with priority := pr, escalationReason := er, isProcessed := true }] := by
  subst hm
  rw [filter_map_of_preserve _ f hpres2, List.filter_append,
    filter_map_of_preserve _ f hpres1, List.filter_append, h0]
  simp [List.filter, hu, hb, hid]


/-- C1: dedup idempotence.  For two submissions with the same `client_id` and
byte-identical content, the second arriving inside the 5-second dedup window
of the first (client fresh, rate limiter disabled, oracles on the success
path, rendered response text distinct from the submitted content): the first
call returns `ok` carrying the stored USER row id, the second call returns
status `duplicate` carrying that same original message id and leaves the
database untouched (no new message, classification, response or reminder
row), and exactly one USER message row with that content exists. -/
theorem dedup_idempotent (s1 s2 : Settings) (o1 o2 : RouteOracles) (db0 : Db)
    (client content : String) (t1 t2 : Nat) (p rtext : String)
    (cls : ClassifyResult) (scen : ScenarioType)
    (hs1 : s1.rateLimitEnabled = false) (hs2 : s2.rateLimitEnabled = false)
    (hfresh : countClientMessages db0 client = 0)
    (hproc : o1.processText content = some p) (hp : ¬ p = "")
    (hai : o1.aiClassify (some p) = cls) (hsucc : cls.success = true)
    (hscen : ScenarioType.ofString cls.scenario = some scen)
    (hrender : o1.render cls.scenario = some rtext)
    (hrtext : rtext ≠ content)
    (ht12 : t1 ≤ t2) (ht25 : t2 ≤ t1 + 5) :
    (∃ st pr er, (createMessage s1 o1 db0 client content t1).1
        = RouteResult.ok st (intakeInsert db0 client content t1).1
            (intakeInsert db0 client content t1).2.1 pr er)
    ∧ (∃ rsp clsid,
        createMessage s2 o2 (createMessage s1 o1 db0 client content t1).2
            client content t2
          = (RouteResult.duplicate (intakeInsert db0 client content t1).1 rsp clsid,
             (createMessage s1 o1 db0 client content t1).2))
    ∧ countUserContent (createMessage s1 o1 db0 client content t1).2 client content
        = 1 := by
  have hfilc : db0.messages.filter (fun m => decide (m.clientId = client)) = [] := by
    have h := hfresh
    unfold countClientMessages at h
    exact List.length_eq_zero.mp h
  have hnodup : checkDuplicate db0 t1 client content = none := by
    unfold checkDuplicate
    rw [filter_eq_nil_of_imp _ _ _
      (by intro x hx; simp at hx ⊢; exact hx.1) hfilc]
    rfl
  obtain ⟨st, pr, er, mt, n, heq1, hmsgs, hmt⟩ :=
    createMessage_success_shape s1 o1 db0 client content t1 p rtext cls scen
      hs1 hnodup hproc hp hai hsucc hscen hrender
  rw [intakeInsert_messages] at hmsgs
  have hfil2 : (createMessage s1 o1 db0 client content t1).2.messages.filter
      (fun m => decide (m.clientId = client ∧ m.content = content
        ∧ t2 - 5 ≤ m.createdAt)) = _ :=
    filter_route_messages db0.messages _ _ pr er
      (intakeInsert db0 client content t1).1 _ _ hmsgs rfl
      (by intro x; by_cases hx : x.id = (intakeInsert db0 client content t1).1
          <;> simp [hx])
      (by intro x; by_cases hx : x.id = (intakeInsert db0 client content t1).1
          <;> simp [hx])
      (filter_eq_nil_of_imp _ _ _
        (by intro x hx; simp at hx ⊢; exact hx.1) hfilc)
      (by simp; omega)
      (by simp [hrtext])
  have hfilU : (createMessage s1 o1 db0 client content t1).2.messages.filter
      (fun m => decide (m.clientId = client ∧ m.messageType = MessageType.user
        ∧ m.content = content)) = _ :=
    filter_route_messages db0.messages _ _ pr er
      (intakeInsert db0 client content t1).1 _ _ hmsgs rfl
      (by intro x; by_cases hx : x.id = (intakeInsert db0 client content t1).1
          <;> simp [hx])
      (by intro x; by_cases hx : x.id = (intakeInsert db0 client content t1).1
          <;> simp [hx])
      (filter_eq_nil_of_imp _ _ _
        (by intro x hx; simp at hx ⊢; exact hx.1) hfilc)
      (by simp)
      (by simp [hmt])
  have hdup := checkDuplicate_of_filter_singleton _ t2 client content _ hfil2
  refine ⟨⟨st, pr, er, heq1⟩, ?_, ?_⟩
  · exact ⟨_, _, duplicate_branch s2 o2 _ client content t2 _ hs2 hdup⟩
  · unfold countUserContent
    rw [hfilU]
    rfl


/-- Witness for the dedup-idempotence theorem at a concrete two-call run. -/
theorem dedup_idempotent_witness :
    (∃ st pr er, (createMessage ⟨false, 10⟩ dedupOracles Db.empty "c" "hi" 100).1
        = RouteResult.ok st (intakeInsert Db.empty "c" "hi" 100).1
            (intakeInsert Db.empty "c" "hi" 100).2.1 pr er)
    ∧ (∃ rsp clsid,
        createMessage ⟨false, 10⟩ dedupOracles
            (createMessage ⟨false, 10⟩ dedupOracles Db.empty "c" "hi" 100).2
            "c" "hi" 103
          = (RouteResult.duplicate (intakeInsert Db.empty "c" "hi" 100).1 rsp clsid,
             (createMessage ⟨false, 10⟩ dedupOracles Db.empty "c" "hi" 100).2))
    ∧ countUserContent (createMessage ⟨false, 10⟩ dedupOracles Db.empty "c" "hi" 100).2
        "c" "hi" = 1 :=
  dedup_idempotent ⟨false, 10⟩ ⟨false, 10⟩ dedupOracles dedupOracles Db.empty "c" "hi"
    100 103 "hi" "resp" ⟨true, "GREETING", mkRat 9 10, none, "m"⟩ ScenarioType.greeting
    rfl rfl rfl rfl (by decide) rfl rfl rfl rfl (by decide) (by decide) (by decide)

end AiMsg
